import Mathlib

/-!
# VL53L7CX demo driver (`vl53l7cx_driver.c`, `platform_pico.c`): shallow embedding

The driver talks to the sensor through the Pico SDK primitives
`i2c_write_blocking` and `i2c_read_blocking`.  They are external collaborators,
so they are modelled as an arbitrary deterministic state machine `I2CBus σ`;
every call is appended to a transaction log, from which the statements about
"which registers were addressed" are read off.

Conventions
* machine integers are `Nat`; a `uint8_t` load is `% 256`, a `uint16_t` value is `% 65536`,
  `uint32_t` arithmetic is `% 2 ^ 32`;
* C arrays are lists, `a[i] = v` is `List.set`, `a[i]` is `List.getD _ i 0`;
* pointers that the code tests against `NULL` are `Option`s; a function that receives a
  pointer to a mutable object returns the object as it is after the call;
* the static `last_check` of `vl53l7cx_get_data_ready` and the clock reading are explicit
  arguments;
* `printf` output of the driver functions is diagnostics only and is not modelled; the
  output of `vl53l7cx_print_zone_data` is modelled as its sequence of `printf` calls.
-/

namespace VL53L7CX

/-! ## Constants of `vl53l7cx_driver.h` -/

def VL53L7CX_REG_SYSTEM__INTERRUPT_CLEAR : Nat := 0x0086
def VL53L7CX_REG_SYSTEM__MODE_START : Nat := 0x0087
def VL53L7CX_NB_ZONES : Nat := 64
def VL53L7CX_STATUS_OK : Int := 0
def VL53L7CX_STATUS_ERROR : Int := -1

/-! ## Data model -/

/-- The struct `vl53l7cx_zone_data_t`: four `uint16_t[64]` channels, one `uint8_t[64]`
status channel and the `data_ready` flag. -/
structure vl53l7cx_zone_data_t where
  distance_mm : List Nat
  signal_rate : List Nat
  ambient_rate : List Nat
  sigma : List Nat
  range_status : List Nat
  data_ready : Bool
deriving DecidableEq

/-- The struct `vl53l7cx_device_t`; `i2c` is the (non-null) bus instance reference. -/
structure vl53l7cx_device_t where
  i2c : Nat
  address : Nat
  initialized : Bool
deriving DecidableEq

/-! ## The I2C bus -/

/-- One call of a bus primitive, as the driver issued it. -/
inductive Txn where
  | write (i2c address : Nat) (src : List Nat) (len : Nat) (nostop : Bool)
  | read (i2c address : Nat) (len : Nat) (nostop : Bool)
deriving DecidableEq

/-- The bus layer: `write` answers with the SDK return value (bytes written or a negative
error), `read` also with the bytes it delivered. -/
structure I2CBus (σ : Type) where
  write : σ → Nat → Nat → List Nat → Nat → Bool → Int × σ
  read : σ → Nat → Nat → Nat → Bool → Int × List Nat × σ

/-- Bus state together with the log of the transactions issued so far (oldest first). -/
structure World (σ : Type) where
  bus : σ
  log : List Txn

/-- Overwrite the first `len` bytes of `dst` with the bytes the bus delivered. -/
def memWrite (dst bytes : List Nat) (len : Nat) : List Nat :=
  bytes.take len ++ dst.drop (bytes.take len).length

/-- SDK `i2c_write_blocking(i2c, addr, src, len, nostop)`. -/
def i2c_write_blocking {σ : Type} (bus : I2CBus σ) (w : World σ)
    (i2c addr : Nat) (src : List Nat) (len : Nat) (nostop : Bool) : Int × World σ :=
  let r := bus.write w.bus i2c addr src len nostop
  (r.1, { bus := r.2, log := w.log ++ [Txn.write i2c addr src len nostop] })

/-- SDK `i2c_read_blocking(i2c, addr, dst, len, nostop)`; the second component is `dst`
after the call. -/
def i2c_read_blocking {σ : Type} (bus : I2CBus σ) (w : World σ)
    (i2c addr : Nat) (dst : List Nat) (len : Nat) (nostop : Bool) : Int × List Nat × World σ :=
  let r := bus.read w.bus i2c addr len nostop
  (r.1, memWrite dst r.2.1 len, { bus := r.2.2, log := w.log ++ [Txn.read i2c addr len nostop] })

/-! ## Register transport (`vl53l7cx_driver.c`, lines 5-25) -/

/-- Source `vl53l7cx_write_register(dev, reg, data, len)`. -/
def vl53l7cx_write_register {σ : Type} (bus : I2CBus σ) (w : World σ)
    (dev : vl53l7cx_device_t) (reg : Nat) (data : List Nat) (len : Nat) : Int × World σ :=
  let buffer : List Nat := [(reg >>> 8) &&& 0xFF, reg &&& 0xFF] ++ data.take len
  let r := i2c_write_blocking bus w dev.i2c dev.address buffer (len + 2) false
  (if r.1 = (len : Int) + 2 then VL53L7CX_STATUS_OK else VL53L7CX_STATUS_ERROR, r.2)

/-- Outcome of `vl53l7cx_read_register`: return value, the caller's buffer, the world. -/
structure RegRead (σ : Type) where
  ret : Int
  data : List Nat
  world : World σ

/-- Source `vl53l7cx_read_register(dev, reg, data, len)`. -/
def vl53l7cx_read_register {σ : Type} (bus : I2CBus σ) (w : World σ)
    (dev : vl53l7cx_device_t) (reg : Nat) (data : List Nat) (len : Nat) : RegRead σ :=
  let reg_addr : List Nat := [(reg >>> 8) &&& 0xFF, reg &&& 0xFF]
  let r := i2c_write_blocking bus w dev.i2c dev.address reg_addr 2 true
  if r.1 ≠ 2 then { ret := VL53L7CX_STATUS_ERROR, data := data, world := r.2 }
  else
    let q := i2c_read_blocking bus r.2 dev.i2c dev.address data len false
    { ret := if q.1 = (len : Int) then VL53L7CX_STATUS_OK else VL53L7CX_STATUS_ERROR,
      data := q.2.1, world := q.2.2 }

/-! ## Zone decoder (`vl53l7cx_get_zone_data`, lines 117-251) -/

/-- The snapshot after `memset(data, 0, sizeof(vl53l7cx_zone_data_t))`. -/
def zeroed : vl53l7cx_zone_data_t :=
  { distance_mm := List.replicate 64 0, signal_rate := List.replicate 64 0,
    ambient_rate := List.replicate 64 0, sigma := List.replicate 64 0,
    range_status := List.replicate 64 0, data_ready := false }

/-- A `uint8_t` load `buf[i]`. -/
def load8 (buf : List Nat) (i : Nat) : Nat := buf.getD i 0 % 256

/-- The expression `(raw_data[k * 2 + 1] << 8) | raw_data[k * 2]` converted to `uint16_t`. -/
def rawWord (raw_data : List Nat) (k : Nat) : Nat :=
  ((load8 raw_data (k * 2 + 1) <<< 8) ||| load8 raw_data (k * 2)) % 65536

/-- Loop body of method 1 (lines 144-156 and 171-183): zone `i` from word `k`. -/
def interpretZone (raw_data : List Nat) (k i : Nat) (data : vl53l7cx_zone_data_t) :
    vl53l7cx_zone_data_t :=
  let raw_value := rawWord raw_data k
  if raw_value = 0 then
    { data with distance_mm := data.distance_mm.set i 0, range_status := data.range_status.set i 0 }
  else if raw_value > 8000 then
    { data with distance_mm := data.distance_mm.set i 0, range_status := data.range_status.set i 1 }
  else
    { data with distance_mm := data.distance_mm.set i raw_value,
                range_status := data.range_status.set i 0 }

/-- Loop body of methods 2-4 (lines 202-203, 220-221, 238-239). -/
def copyZone (raw_data : List Nat) (i : Nat) (data : vl53l7cx_zone_data_t) :
    vl53l7cx_zone_data_t :=
  { data with distance_mm := data.distance_mm.set i (rawWord raw_data i),
              range_status := data.range_status.set i 0 }

/-- Values taken by `i` in `for (int i = start; cond(i); i++)`; every loop of the decoder
has `i < VL53L7CX_NB_ZONES` in its condition, so 64 iterations bound it. -/
def forIndices (start : Nat) (cond : Nat → Bool) : List Nat :=
  (List.range' start VL53L7CX_NB_ZONES).takeWhile cond

/-- Loop `for (int i = 0; i < VL53L7CX_NB_ZONES && i < 32; i++)` of method 1. -/
def decodeLow (raw_data : List Nat) (data : vl53l7cx_zone_data_t) : vl53l7cx_zone_data_t :=
  (forIndices 0 (fun i => decide (i < VL53L7CX_NB_ZONES) && decide (i < 32))).foldl
    (fun d i => interpretZone raw_data i i d) data

/-- Loop `for (int i = 32; i < VL53L7CX_NB_ZONES && i < 64; i++)` of method 1. -/
def decodeHigh (raw_data : List Nat) (data : vl53l7cx_zone_data_t) : vl53l7cx_zone_data_t :=
  (forIndices 32 (fun i => decide (i < VL53L7CX_NB_ZONES) && decide (i < 64))).foldl
    (fun d i => interpretZone raw_data (i - 32) i d) data

/-- Loop `for (int i = 0; i < VL53L7CX_NB_ZONES && i < 32; i++)` of methods 2-4. -/
def copyLow (raw_data : List Nat) (data : vl53l7cx_zone_data_t) : vl53l7cx_zone_data_t :=
  (forIndices 0 (fun i => decide (i < VL53L7CX_NB_ZONES) && decide (i < 32))).foldl
    (fun d i => copyZone raw_data i d) data

/-- Outcome of `vl53l7cx_get_zone_data`: return value, the handle object and the caller's
snapshot object after the call (`none` when the pointer was `NULL`), the world. -/
structure ZoneRead (σ : Type) where
  ret : Int
  dev : Option vl53l7cx_device_t
  data : Option vl53l7cx_zone_data_t
  world : World σ

/-- Source `vl53l7cx_get_zone_data(dev, data)`.  `raw_data` is the content of the local
buffer `uint8_t raw_data[128]` on entry, which C leaves indeterminate. -/
def vl53l7cx_get_zone_data {σ : Type} (bus : I2CBus σ) (w : World σ)
    (dev : Option vl53l7cx_device_t) (data : Option vl53l7cx_zone_data_t)
    (raw_data : List Nat) : ZoneRead σ :=
  match dev, data with
  | some d, some _ =>
    if d.initialized = false then
      { ret := VL53L7CX_STATUS_ERROR, dev := dev, data := data, world := w }
    else
      let data0 := zeroed
      let r1 := vl53l7cx_read_register bus w d 0x0006 raw_data 64
      if r1.ret = VL53L7CX_STATUS_OK then
        let data1 := decodeLow r1.data data0
        let r2 := vl53l7cx_read_register bus r1.world d 0x0007 r1.data 64
        let data2 := if r2.ret = VL53L7CX_STATUS_OK then decodeHigh r2.data data1 else data1
        { ret := VL53L7CX_STATUS_OK, dev := dev, data := some { data2 with data_ready := true },
          world := r2.world }
      else
        let r2 := vl53l7cx_read_register bus r1.world d 0x0007 r1.data 64
        if r2.ret = VL53L7CX_STATUS_OK then
          { ret := VL53L7CX_STATUS_OK, dev := dev,
            data := some { copyLow r2.data data0 with data_ready := true }, world := r2.world }
        else
          let r3 := vl53l7cx_read_register bus r2.world d 0x0008 r2.data 64
          if r3.ret = VL53L7CX_STATUS_OK then
            { ret := VL53L7CX_STATUS_OK, dev := dev,
              data := some { copyLow r3.data data0 with data_ready := true }, world := r3.world }
          else
            let r4 := vl53l7cx_read_register bus r3.world d 0x0009 r3.data 64
            if r4.ret = VL53L7CX_STATUS_OK then
              { ret := VL53L7CX_STATUS_OK, dev := dev,
                data := some { copyLow r4.data data0 with data_ready := true },
                world := r4.world }
            else
              { ret := VL53L7CX_STATUS_ERROR, dev := dev, data := some data0,
                world := r4.world }
  | _, _ => { ret := VL53L7CX_STATUS_ERROR, dev := dev, data := data, world := w }

/-! ## Zone decoder with bounds-checked array accesses -/

/-- A checked `uint8_t` load `buf[i]`: `none` when `i` is outside the buffer. -/
def load8Checked (buf : List Nat) (i : Nat) : Option Nat :=
  match buf[i]? with
  | some b => some (b % 256)
  | none => none

/-- A checked array store `a[i] = v`: `none` when `i` is outside the array. -/
def storeChecked (a : List Nat) (i v : Nat) : Option (List Nat) :=
  if i < a.length then some (a.set i v) else none

/-- The word expression of `rawWord` with checked loads of `raw_data[k * 2 + 1]` and
`raw_data[k * 2]`. -/
def rawWordChecked (raw_data : List Nat) (k : Nat) : Option Nat :=
  match load8Checked raw_data (k * 2 + 1), load8Checked raw_data (k * 2) with
  | some hi, some lo => some (((hi <<< 8) ||| lo) % 65536)
  | _, _ => none

/-- The two stores `data->distance_mm[i] = dist; data->range_status[i] = st;`, checked. -/
def storeZoneChecked (data : vl53l7cx_zone_data_t) (i dist st : Nat) :
    Option vl53l7cx_zone_data_t :=
  match storeChecked data.distance_mm i dist, storeChecked data.range_status i st with
  | some dm, some rs => some { data with distance_mm := dm, range_status := rs }
  | _, _ => none

/-- Loop body of method 1 with every array access checked. -/
def interpretZoneChecked (raw_data : List Nat) (k i : Nat) (data : vl53l7cx_zone_data_t) :
    Option vl53l7cx_zone_data_t :=
  match rawWordChecked raw_data k with
  | none => none
  | some raw_value =>
    if raw_value = 0 then storeZoneChecked data i 0 0
    else if raw_value > 8000 then storeZoneChecked data i 0 1
    else storeZoneChecked data i raw_value 0

/-- Loop body of methods 2-4 with every array access checked. -/
def copyZoneChecked (raw_data : List Nat) (i : Nat) (data : vl53l7cx_zone_data_t) :
    Option vl53l7cx_zone_data_t :=
  match rawWordChecked raw_data i with
  | none => none
  | some raw_value => storeZoneChecked data i raw_value 0

/-- Run a loop whose body may fail over the given counter values, stopping at the first
failure. -/
def forEachChecked (body : vl53l7cx_zone_data_t → Nat → Option vl53l7cx_zone_data_t) :
    List Nat → vl53l7cx_zone_data_t → Option vl53l7cx_zone_data_t
  | [], data => some data
  | i :: rest, data =>
    match body data i with
    | some next => forEachChecked body rest next
    | none => none

/-- The first loop of method 1, checked. -/
def decodeLowChecked (raw_data : List Nat) (data : vl53l7cx_zone_data_t) :
    Option vl53l7cx_zone_data_t :=
  forEachChecked (fun d i => interpretZoneChecked raw_data i i d)
    (forIndices 0 (fun i => decide (i < VL53L7CX_NB_ZONES) && decide (i < 32))) data

/-- The second loop of method 1, checked. -/
def decodeHighChecked (raw_data : List Nat) (data : vl53l7cx_zone_data_t) :
    Option vl53l7cx_zone_data_t :=
  forEachChecked (fun d i => interpretZoneChecked raw_data (i - 32) i d)
    (forIndices 32 (fun i => decide (i < VL53L7CX_NB_ZONES) && decide (i < 64))) data

/-- The loop of methods 2-4, checked. -/
def copyLowChecked (raw_data : List Nat) (data : vl53l7cx_zone_data_t) :
    Option vl53l7cx_zone_data_t :=
  forEachChecked (fun d i => copyZoneChecked raw_data i d)
    (forIndices 0 (fun i => decide (i < VL53L7CX_NB_ZONES) && decide (i < 32))) data

/-- Source `vl53l7cx_get_zone_data(dev, data)` once more, with every access to `raw_data`,
`distance_mm` and `range_status` checked against the array: the result is `none` as soon as
an index is out of range, and as soon as a 64-byte read is directed at a buffer shorter than
64 bytes. -/
def vl53l7cx_get_zone_data_checked {σ : Type} (bus : I2CBus σ) (w : World σ)
    (dev : Option vl53l7cx_device_t) (data : Option vl53l7cx_zone_data_t)
    (raw_data : List Nat) : Option (ZoneRead σ) :=
  match dev, data with
  | some d, some _ =>
    if d.initialized = false then
      some { ret := VL53L7CX_STATUS_ERROR, dev := dev, data := data, world := w }
    else if raw_data.length < 64 then none
    else
      let data0 := zeroed
      let r1 := vl53l7cx_read_register bus w d 0x0006 raw_data 64
      if r1.ret = VL53L7CX_STATUS_OK then
        match decodeLowChecked r1.data data0 with
        | none => none
        | some data1 =>
          if r1.data.length < 64 then none
          else
            let r2 := vl53l7cx_read_register bus r1.world d 0x0007 r1.data 64
            if r2.ret = VL53L7CX_STATUS_OK then
              match decodeHighChecked r2.data data1 with
              | none => none
              | some data2 =>
                some { ret := VL53L7CX_STATUS_OK, dev := dev,
                       data := some { data2 with data_ready := true }, world := r2.world }
            else
              some { ret := VL53L7CX_STATUS_OK, dev := dev,
                     data := some { data1 with data_ready := true }, world := r2.world }
      else if r1.data.length < 64 then none
      else
        let r2 := vl53l7cx_read_register bus r1.world d 0x0007 r1.data 64
        if r2.ret = VL53L7CX_STATUS_OK then
          match copyLowChecked r2.data data0 with
          | none => none
          | some data1 =>
            some { ret := VL53L7CX_STATUS_OK, dev := dev,
                   data := some { data1 with data_ready := true }, world := r2.world }
        else if r2.data.length < 64 then none
        else
          let r3 := vl53l7cx_read_register bus r2.world d 0x0008 r2.data 64
          if r3.ret = VL53L7CX_STATUS_OK then
            match copyLowChecked r3.data data0 with
            | none => none
            | some data1 =>
              some { ret := VL53L7CX_STATUS_OK, dev := dev,
                     data := some { data1 with data_ready := true }, world := r3.world }
          else if r3.data.length < 64 then none
          else
            let r4 := vl53l7cx_read_register bus r3.world d 0x0009 r3.data 64
            if r4.ret = VL53L7CX_STATUS_OK then
              match copyLowChecked r4.data data0 with
              | none => none
              | some data1 =>
                some { ret := VL53L7CX_STATUS_OK, dev := dev,
                       data := some { data1 with data_ready := true }, world := r4.world }
            else
              some { ret := VL53L7CX_STATUS_ERROR, dev := dev, data := some data0,
                     world := r4.world }
  | _, _ => some { ret := VL53L7CX_STATUS_ERROR, dev := dev, data := data, world := w }

/-! ## Lifecycle (`vl53l7cx_driver.c`, lines 27-115) -/

/-- Outcome of a lifecycle call: return value, the handle object after the call (`none`
when the pointer was `NULL`), the world. -/
structure Call (σ : Type) where
  ret : Int
  dev : Option vl53l7cx_device_t
  world : World σ

/-- Source `vl53l7cx_init(dev, i2c, address)`.  `dev` is the handle object on entry, `i2c`
the bus instance pointer.  The byte read into the local `test_data` is only printed. -/
def vl53l7cx_init {σ : Type} (bus : I2CBus σ) (w : World σ)
    (dev : Option vl53l7cx_device_t) (i2c : Option Nat) (address : Nat) : Call σ :=
  match dev, i2c with
  | some _, some i =>
    let dev1 : vl53l7cx_device_t := { i2c := i, address := address, initialized := false }
    let r := i2c_read_blocking bus w dev1.i2c dev1.address [0] 1 false
    if r.1 ≠ 1 then { ret := VL53L7CX_STATUS_ERROR, dev := some dev1, world := r.2.2 }
    else
      { ret := VL53L7CX_STATUS_OK, dev := some { dev1 with initialized := true },
        world := r.2.2 }
  | _, _ => { ret := VL53L7CX_STATUS_ERROR, dev := dev, world := w }

/-- Source `vl53l7cx_start_ranging(dev)`. -/
def vl53l7cx_start_ranging {σ : Type} (bus : I2CBus σ) (w : World σ)
    (dev : Option vl53l7cx_device_t) : Call σ :=
  match dev with
  | some d =>
    if d.initialized = false then { ret := VL53L7CX_STATUS_ERROR, dev := dev, world := w }
    else
      let start_cmd : Nat := 0x40
      let r := vl53l7cx_write_register bus w d VL53L7CX_REG_SYSTEM__MODE_START [start_cmd] 1
      { ret := r.1, dev := dev, world := r.2 }
  | none => { ret := VL53L7CX_STATUS_ERROR, dev := dev, world := w }

/-- Source `vl53l7cx_stop_ranging(dev)`. -/
def vl53l7cx_stop_ranging {σ : Type} (bus : I2CBus σ) (w : World σ)
    (dev : Option vl53l7cx_device_t) : Call σ :=
  match dev with
  | some d =>
    if d.initialized = false then { ret := VL53L7CX_STATUS_ERROR, dev := dev, world := w }
    else
      let stop_cmd : Nat := 0x00
      let r := vl53l7cx_write_register bus w d VL53L7CX_REG_SYSTEM__MODE_START [stop_cmd] 1
      { ret := r.1, dev := dev, world := r.2 }
  | none => { ret := VL53L7CX_STATUS_ERROR, dev := dev, world := w }

/-- Source `vl53l7cx_clear_interrupt(dev)`. -/
def vl53l7cx_clear_interrupt {σ : Type} (bus : I2CBus σ) (w : World σ)
    (dev : Option vl53l7cx_device_t) : Call σ :=
  match dev with
  | some d =>
    if d.initialized = false then { ret := VL53L7CX_STATUS_ERROR, dev := dev, world := w }
    else
      let clear_cmd : Nat := 0x01
      let r := vl53l7cx_write_register bus w d VL53L7CX_REG_SYSTEM__INTERRUPT_CLEAR
        [clear_cmd] 1
      { ret := r.1, dev := dev, world := r.2 }
  | none => { ret := VL53L7CX_STATUS_ERROR, dev := dev, world := w }

/-! ## Data-ready detector (`vl53l7cx_get_data_ready`, lines 89-107) -/

/-- Number of values of a `uint32_t`. -/
def UINT32_SIZE : Nat := 4294967296

/-- Unsigned 32-bit subtraction `a - b`. -/
def sub32 (a b : Nat) : Nat := (a % UINT32_SIZE + UINT32_SIZE - b % UINT32_SIZE) % UINT32_SIZE

/-- Outcome of `vl53l7cx_get_data_ready`: return value, the handle object and the caller's
`*ready` object after the call, and the function's static `last_check` after the call. -/
structure ReadyCall where
  ret : Int
  dev : Option vl53l7cx_device_t
  ready : Option Bool
  last_check : Nat
deriving DecidableEq

/-- Source `vl53l7cx_get_data_ready(dev, ready)`.  `last_check` is the value of the static
variable on entry (0 at program start); `now` is what
`to_ms_since_boot(get_absolute_time())` returns during the call. -/
def vl53l7cx_get_data_ready (dev : Option vl53l7cx_device_t) (ready : Option Bool)
    (last_check now : Nat) : ReadyCall :=
  match dev, ready with
  | some d, some _ =>
    if d.initialized = false then
      { ret := VL53L7CX_STATUS_ERROR, dev := dev, ready := ready, last_check := last_check }
    else
      let current_time := now % UINT32_SIZE
      if sub32 current_time last_check > 100 then
        { ret := VL53L7CX_STATUS_OK, dev := dev, ready := some true,
          last_check := current_time }
      else
        { ret := VL53L7CX_STATUS_OK, dev := dev, ready := some false,
          last_check := last_check }
  | _, _ => { ret := VL53L7CX_STATUS_ERROR, dev := dev, ready := ready, last_check := last_check }

/-- Successive polls `vl53l7cx_get_data_ready(dev, &ready)` at the given clock readings:
the answers, oldest first, and the static `last_check` after the last poll. -/
def pollAll (dev : Option vl53l7cx_device_t) : Nat → List Nat → List ReadyCall × Nat
  | last_check, [] => ([], last_check)
  | last_check, now :: rest =>
    let r := vl53l7cx_get_data_ready dev (some false) last_check now
    let tail := pollAll dev r.last_check rest
    (r :: tail.1, tail.2)

/-! ## Presentation (`vl53l7cx_print_zone_data`, lines 253-279) -/

/-- One `printf` of `vl53l7cx_print_zone_data`: the fixed banners, the row label
`"Row %d: "`, a value cell `"%4d "` and the end of a row. -/
inductive Printed where
  | header
  | distancesTitle
  | statusTitle
  | footer
  | rowLabel (row : Nat)
  | cell (value : Nat)
  | newline
deriving DecidableEq

/-- Values taken by the counter of `for (int k = 0; k < 8; k++)`. -/
def gridIndices : List Nat := forIndices 0 (fun k => decide (k < 8))

/-- One block of the printout: `for (row ...) { "Row %d: "; for (col ...) "%4d "; "\n" }`
over the array `values`. -/
def printBlock (values : List Nat) : List Printed :=
  gridIndices.foldl (fun out row =>
    (gridIndices.foldl (fun line col =>
        let zone := row * 8 + col
        line ++ [Printed.cell (values.getD zone 0)])
      (out ++ [Printed.rowLabel row])) ++ [Printed.newline]) []

/-- Source `vl53l7cx_print_zone_data(data)`: the sequence of `printf` calls.  The snapshot is
taken by pointer to `const` and is only read. -/
def vl53l7cx_print_zone_data (data : Option vl53l7cx_zone_data_t) : List Printed :=
  match data with
  | none => []
  | some s =>
    [Printed.header, Printed.distancesTitle] ++ printBlock s.distance_mm ++
      [Printed.statusTitle] ++ printBlock s.range_status ++ [Printed.footer]

/-- The rows of value cells of a printout: cells are collected up to each end of row. -/
def gridRows : List Printed → List Nat → List (List Nat)
  | [], _ => []
  | Printed.cell v :: rest, line => gridRows rest (line ++ [v])
  | Printed.newline :: rest, line => line :: gridRows rest []
  | _ :: rest, line => gridRows rest line

/-! ## Platform layer (`platform_pico.c`, lines 170-192) -/

/-- One iteration of the loop of `VL53L7CX_SwapBuffer` at offset `i`: the word
`tmp = (buffer[i]<<24)|(buffer[i+1]<<16)|(buffer[i+2]<<8)|(buffer[i+3])` converted to
`uint32_t`, then `memcpy(&(buffer[i]), &tmp, 4)`, which on the little-endian host stores
the least significant byte of `tmp` at `buffer[i]`. -/
def swapStep (buffer : List Nat) (i : Nat) : List Nat :=
  let tmp := ((load8 buffer i <<< 24) ||| (load8 buffer (i + 1) <<< 16) |||
    (load8 buffer (i + 2) <<< 8) ||| (load8 buffer (i + 3))) % UINT32_SIZE
  (((buffer.set i (tmp % 256)).set (i + 1) ((tmp >>> 8) % 256)).set (i + 2)
    ((tmp >>> 16) % 256)).set (i + 3) ((tmp >>> 24) % 256)

/-- The loop `for (i = 0; i < size; i = i + 4)` continued from counter value `i`; `fuel`
bounds the number of iterations still allowed. -/
def swapLoop : Nat → List Nat → Nat → Nat → List Nat
  | 0, buffer, _, _ => buffer
  | fuel + 1, buffer, size, i =>
    if i < size then swapLoop fuel (swapStep buffer i) size (i + 4) else buffer

/-- Source `VL53L7CX_SwapBuffer(buffer, size)`: the buffer after the call.  The counter
grows by 4 per iteration, so `size` iterations are never exceeded. -/
def VL53L7CX_SwapBuffer (buffer : List Nat) (size : Nat) : List Nat :=
  swapLoop size buffer size 0

/-- The byte order of every group of four consecutive bytes reversed, groups left in place
(the effect the spec states for `VL53L7CX_SwapBuffer`); a tail of fewer than four bytes is
kept. -/
def reverseGroups : List Nat → List Nat
  | a :: b :: c :: d :: rest => d :: c :: b :: a :: reverseGroups rest
  | rest => rest

/-! ## Observations used in the statements -/

/-- Distance and status of zone `i` of a snapshot (`none` outside the arrays). -/
def zoneEntry (s : vl53l7cx_zone_data_t) (i : Nat) : Option (Nat × Nat) :=
  match s.distance_mm[i]?, s.range_status[i]? with
  | some dist, some st => some (dist, st)
  | _, _ => none

/-- Is the transaction a bus write? -/
def Txn.isWrite : Txn → Bool
  | Txn.write _ _ _ _ _ => true
  | Txn.read _ _ _ _ => false

/-- The bus writes a call issued, given the log length before it and the log after it. -/
def writesSince (before : Nat) (log : List Txn) : List Txn :=
  (log.drop before).filter Txn.isWrite

/-- The address phase of `vl53l7cx_read_register` for register `reg`. -/
def addrPhase (dev : vl53l7cx_device_t) (reg : Nat) : Txn :=
  Txn.write dev.i2c dev.address [(reg >>> 8) &&& 0xFF, reg &&& 0xFF] 2 true

/-- The read of candidate A (0x0006) as the decoder issues it. -/
def readA {σ : Type} (bus : I2CBus σ) (w : World σ) (d : vl53l7cx_device_t)
    (raw0 : List Nat) : RegRead σ :=
  vl53l7cx_read_register bus w d 0x0006 raw0 64

/-- The read of candidate B (0x0007), issued after the read of A. -/
def readB {σ : Type} (bus : I2CBus σ) (w : World σ) (d : vl53l7cx_device_t)
    (raw0 : List Nat) : RegRead σ :=
  vl53l7cx_read_register bus (readA bus w d raw0).world d 0x0007 (readA bus w d raw0).data 64

/-- The read of candidate C (0x0008), issued after the reads of A and B. -/
def readC {σ : Type} (bus : I2CBus σ) (w : World σ) (d : vl53l7cx_device_t)
    (raw0 : List Nat) : RegRead σ :=
  vl53l7cx_read_register bus (readB bus w d raw0).world d 0x0008 (readB bus w d raw0).data 64

/-- The read of candidate D (0x0009), issued after the reads of A, B and C. -/
def readD {σ : Type} (bus : I2CBus σ) (w : World σ) (d : vl53l7cx_device_t)
    (raw0 : List Nat) : RegRead σ :=
  vl53l7cx_read_register bus (readC bus w d raw0).world d 0x0009 (readC bus w d raw0).data 64

/-! ## Concrete buses used to exercise the statements -/

/-- A register-file device: a write selects the register named by its first two bytes
and accepts everything; a read is answered (with `content reg`) only for the
registers in `live`, otherwise it fails with the SDK error code `-1`. -/
def regFileBus (live : List Nat) (content : Nat → List Nat) : I2CBus Nat where
  write := fun _ _ _ src len _ => ((len : Int), src.getD 0 0 * 256 + src.getD 1 0)
  read := fun p _ _ len _ =>
    if p ∈ live then ((len : Int), (content p).take len, p) else (-1, [], p)

/-- State of the echoing mock device: the register selected last (its two address
bytes) and the payload stored for each register. -/
structure EchoState where
  ptr : Nat × Nat
  mem : Nat × Nat → List Nat

/-- Modelled from the spec: the mock bus of the round-trip property, which is not part of
the repository.  A write selects the register named by the two address bytes and, when a
payload follows, stores it there; a read echoes the stored payload of the selected
register and reports how many bytes it delivered. -/
def echoBus : I2CBus EchoState where
  write := fun s _ _ src len _ =>
    let key := (src.getD 0 0, src.getD 1 0)
    let payload := (src.take len).drop 2
    ((len : Int),
      { ptr := key, mem := fun k => if k = key ∧ payload ≠ [] then payload else s.mem k })
  read := fun s _ _ len _ =>
    ((((s.mem s.ptr).take len).length : Int), (s.mem s.ptr).take len, s)

/-- A bus on which every transaction completes: a write reports the requested length, a
read delivers and reports `len` zero bytes. -/
def acceptAllBus : I2CBus Unit where
  write := fun _ _ _ _ len _ => ((len : Int), ())
  read := fun _ _ _ len _ => ((len : Int), List.replicate len 0, ())

/-- A bus on which no device answers: every transaction fails with the SDK error `-1`. -/
def deadBus : I2CBus Unit where
  write := fun _ _ _ _ _ _ => (-1, ())
  read := fun _ _ _ _ _ => (-1, [], ())

/-- An empty world for the stateless example buses. -/
def unitWorld : World Unit := { bus := (), log := [] }

/-- A handle object as it is before `vl53l7cx_init`, with the flag clear. -/
def freshDev : vl53l7cx_device_t := { i2c := 0, address := 0, initialized := false }

/-- Example session on `acceptAllBus`: `vl53l7cx_init` on a fresh handle at `0x29`. -/
def sessionInit : Call Unit :=
  vl53l7cx_init acceptAllBus unitWorld (some freshDev) (some 0) 0x29

/-- Example session, continued: first `vl53l7cx_start_ranging`. -/
def sessionStart : Call Unit :=
  vl53l7cx_start_ranging acceptAllBus sessionInit.world sessionInit.dev

/-- Example session, continued: first `vl53l7cx_stop_ranging`. -/
def sessionStop : Call Unit :=
  vl53l7cx_stop_ranging acceptAllBus sessionStart.world sessionStart.dev

/-- Example session, continued: second `vl53l7cx_start_ranging`. -/
def sessionRestart : Call Unit :=
  vl53l7cx_start_ranging acceptAllBus sessionStop.world sessionStop.dev

/-- Example session, continued: second `vl53l7cx_stop_ranging`. -/
def sessionRestop : Call Unit :=
  vl53l7cx_stop_ranging acceptAllBus sessionRestart.world sessionRestart.dev

/-- The handle used in the examples: bus instance 0, address `0x29`, initialized. -/
def demoDev : vl53l7cx_device_t := { i2c := 0, address := 0x29, initialized := true }

/-- A 64-byte frame whose first four words are `0x0000`, `0x2710`, `0x03E8`, `8000`. -/
def demoFrame : List Nat :=
  [0x00, 0x00, 0x10, 0x27, 0xE8, 0x03, 0x40, 0x1F] ++ List.replicate 56 0

/-- A 64-byte frame whose first two words are `0x2710` and `0x0005`. -/
def demoFrameB : List Nat := [0x10, 0x27, 0x05, 0x00] ++ List.replicate 60 0

/-- Register contents of the example device. -/
def demoContent (reg : Nat) : List Nat := if reg = 6 then demoFrame else demoFrameB

/-- An empty world for the example device (pointer 0, nothing logged). -/
def demoWorld : World Nat := { bus := 0, log := [] }

/-- Distance reported for a raw word by the interpretation of the spec, section 4.4 step 1. -/
def zoneDistance (word : Nat) : Nat :=
  if word = 0 then 0 else if word > 8000 then 0 else word

/-- Status reported for a raw word by the interpretation of the spec, section 4.4 step 1. -/
def zoneStatus (word : Nat) : Nat :=
  if word = 0 then 0 else if word > 8000 then 1 else 0

/-! ## Auxiliary facts -/

theorem rawWord_eq (raw : List Nat) (k : Nat) :
    rawWord raw k = load8 raw (2 * k) + 256 * load8 raw (2 * k + 1) := by
  have hlo : load8 raw (k * 2) < 2 ^ 8 := by unfold load8; omega
  have hhi : load8 raw (k * 2 + 1) < 256 := by unfold load8; omega
  unfold rawWord
  rw [Nat.shiftLeft_eq, Nat.mul_comm _ (2 ^ 8), ← Nat.mul_add_lt_is_or hlo]
  rw [Nat.mul_comm 2 k]
  omega

theorem forIndices_low :
    forIndices 0 (fun i => decide (i < VL53L7CX_NB_ZONES) && decide (i < 32)) =
      List.range' 0 32 := by decide

theorem forIndices_high :
    forIndices 32 (fun i => decide (i < VL53L7CX_NB_ZONES) && decide (i < 64)) =
      List.range' 32 32 := by decide

theorem foldl_set_getElem? (g : Nat → Nat) (is : List Nat) (xs : List Nat) (j : Nat) :
    (is.foldl (fun acc i => acc.set i (g i)) xs)[j]? =
      if j ∈ is then (if j < xs.length then some (g j) else none) else xs[j]? := by
  induction is generalizing xs with
  | nil => simp
  | cons i is ih =>
    simp only [List.foldl_cons]
    rw [ih]
    by_cases hj : j ∈ is
    · simp [hj]
    · by_cases hij : i = j
      · subst hij
        simp [hj, List.getElem?_set]
      · have hji : ¬ j = i := fun h => hij h.symm
        simp [hj, hij, hji, List.getElem?_set]

theorem interpretZone_fields (raw : List Nat) (k i : Nat) (d : vl53l7cx_zone_data_t) :
    interpretZone raw k i d =
      { d with distance_mm := d.distance_mm.set i (zoneDistance (rawWord raw k)),
               range_status := d.range_status.set i (zoneStatus (rawWord raw k)) } := by
  unfold interpretZone zoneDistance zoneStatus
  by_cases h0 : rawWord raw k = 0
  · simp [h0]
  · by_cases h1 : rawWord raw k > 8000
    · simp [h0, h1]
    · simp [h0, h1]

theorem foldl_zone_fields (dist st : Nat → Nat) (is : List Nat) (d : vl53l7cx_zone_data_t) :
    is.foldl (fun acc i => { acc with distance_mm := acc.distance_mm.set i (dist i),
                                      range_status := acc.range_status.set i (st i) }) d =
      { d with distance_mm := is.foldl (fun acc i => acc.set i (dist i)) d.distance_mm,
               range_status := is.foldl (fun acc i => acc.set i (st i)) d.range_status } := by
  induction is generalizing d with
  | nil => rfl
  | cons i is ih => simp only [List.foldl_cons]; rw [ih]

theorem decodeLow_eq (raw : List Nat) (d : vl53l7cx_zone_data_t) :
    decodeLow raw d =
      { d with
        distance_mm := (List.range' 0 32).foldl
          (fun acc i => acc.set i (zoneDistance (rawWord raw i))) d.distance_mm,
        range_status := (List.range' 0 32).foldl
          (fun acc i => acc.set i (zoneStatus (rawWord raw i))) d.range_status } := by
  unfold decodeLow
  rw [forIndices_low]
  simp only [interpretZone_fields]
  exact foldl_zone_fields (fun i => zoneDistance (rawWord raw i))
    (fun i => zoneStatus (rawWord raw i)) _ d

theorem decodeHigh_eq (raw : List Nat) (d : vl53l7cx_zone_data_t) :
    decodeHigh raw d =
      { d with
        distance_mm := (List.range' 32 32).foldl
          (fun acc i => acc.set i (zoneDistance (rawWord raw (i - 32)))) d.distance_mm,
        range_status := (List.range' 32 32).foldl
          (fun acc i => acc.set i (zoneStatus (rawWord raw (i - 32)))) d.range_status } := by
  unfold decodeHigh
  rw [forIndices_high]
  simp only [interpretZone_fields]
  exact foldl_zone_fields (fun i => zoneDistance (rawWord raw (i - 32)))
    (fun i => zoneStatus (rawWord raw (i - 32))) _ d

theorem copyLow_eq (raw : List Nat) (d : vl53l7cx_zone_data_t) :
    copyLow raw d =
      { d with
        distance_mm := (List.range' 0 32).foldl
          (fun acc i => acc.set i (rawWord raw i)) d.distance_mm,
        range_status := (List.range' 0 32).foldl
          (fun acc i => acc.set i 0) d.range_status } := by
  unfold copyLow copyZone
  rw [forIndices_low]
  exact foldl_zone_fields (fun i => rawWord raw i) (fun _ => 0) _ d

theorem foldl_set_length (g : Nat → Nat) (is : List Nat) (xs : List Nat) :
    (is.foldl (fun acc i => acc.set i (g i)) xs).length = xs.length := by
  induction is generalizing xs with
  | nil => rfl
  | cons i is ih => simp only [List.foldl_cons]; rw [ih, List.length_set]

theorem zoneEntry_fold (dist st : Nat → Nat) (lo n : Nat) (d : vl53l7cx_zone_data_t) (i : Nat)
    (hd : d.distance_mm.length = 64) (hs : d.range_status.length = 64) (hi : i < 64) :
    zoneEntry { d with
        distance_mm := (List.range' lo n).foldl (fun acc i => acc.set i (dist i)) d.distance_mm,
        range_status := (List.range' lo n).foldl (fun acc i => acc.set i (st i)) d.range_status }
      i = if lo ≤ i ∧ i < lo + n then some (dist i, st i) else zoneEntry d i := by
  unfold zoneEntry
  simp only [foldl_set_getElem?, List.mem_range'_1, hd, hs, hi]
  by_cases h : lo ≤ i ∧ i < lo + n
  · simp [h]
  · simp [h]

theorem zeroed_lengths :
    zeroed.distance_mm.length = 64 ∧ zeroed.range_status.length = 64 :=
  ⟨List.length_replicate 64 0, List.length_replicate 64 0⟩

theorem zoneEntry_zeroed (i : Nat) (hi : i < 64) : zoneEntry zeroed i = some (0, 0) := by
  have h : (List.replicate 64 0)[i]? = some 0 := by
    rw [List.getElem?_replicate, if_pos hi]
  unfold zoneEntry zeroed
  simp only [h]

theorem zoneEntry_ready (s : vl53l7cx_zone_data_t) (b : Bool) (i : Nat) :
    zoneEntry { s with data_ready := b } i = zoneEntry s i := rfl

theorem decodeLow_lengths (raw : List Nat) (d : vl53l7cx_zone_data_t) :
    (decodeLow raw d).distance_mm.length = d.distance_mm.length ∧
    (decodeLow raw d).range_status.length = d.range_status.length := by
  rw [decodeLow_eq]
  constructor <;> simp only [foldl_set_length]

theorem zoneEntry_decodeLow (raw : List Nat) (i : Nat) (hi : i < 64) :
    zoneEntry (decodeLow raw zeroed) i =
      if i < 32 then some (zoneDistance (rawWord raw i), zoneStatus (rawWord raw i))
      else some (0, 0) := by
  rw [decodeLow_eq, zoneEntry_fold (fun i => zoneDistance (rawWord raw i))
    (fun i => zoneStatus (rawWord raw i)) 0 32 zeroed i zeroed_lengths.1 zeroed_lengths.2 hi,
    zoneEntry_zeroed i hi]
  simp

theorem zoneEntry_copyLow (raw : List Nat) (i : Nat) (hi : i < 64) :
    zoneEntry (copyLow raw zeroed) i =
      if i < 32 then some (rawWord raw i, 0) else some (0, 0) := by
  rw [copyLow_eq, zoneEntry_fold (fun i => rawWord raw i) (fun _ => 0) 0 32 zeroed i
    zeroed_lengths.1 zeroed_lengths.2 hi, zoneEntry_zeroed i hi]
  simp

theorem zoneEntry_decodeHigh (raw : List Nat) (d : vl53l7cx_zone_data_t) (i : Nat)
    (hd : d.distance_mm.length = 64) (hs : d.range_status.length = 64) (hi : i < 64) :
    zoneEntry (decodeHigh raw d) i =
      if 32 ≤ i then
        some (zoneDistance (rawWord raw (i - 32)), zoneStatus (rawWord raw (i - 32)))
      else zoneEntry d i := by
  rw [decodeHigh_eq, zoneEntry_fold (fun i => zoneDistance (rawWord raw (i - 32)))
    (fun i => zoneStatus (rawWord raw (i - 32))) 32 32 d i hd hs hi]
  by_cases h : 32 ≤ i
  · have h2 : i < 32 + 32 := by omega
    simp [h, h2]
  · simp [h]

/-- The result of the decoder when candidate A (0x0006) answered. -/
theorem get_zone_data_of_A {σ : Type} (bus : I2CBus σ) (w : World σ) (d : vl53l7cx_device_t)
    (d0 : vl53l7cx_zone_data_t) (raw0 : List Nat) (hinit : d.initialized = true)
    (hA : (vl53l7cx_read_register bus w d 0x0006 raw0 64).ret = VL53L7CX_STATUS_OK) :
    vl53l7cx_get_zone_data bus w (some d) (some d0) raw0 =
      let r1 := vl53l7cx_read_register bus w d 0x0006 raw0 64
      let r2 := vl53l7cx_read_register bus r1.world d 0x0007 r1.data 64
      { ret := VL53L7CX_STATUS_OK, dev := some d,
        data := some { (if r2.ret = VL53L7CX_STATUS_OK
                          then decodeHigh r2.data (decodeLow r1.data zeroed)
                          else decodeLow r1.data zeroed) with data_ready := true },
        world := r2.world } := by
  simp [vl53l7cx_get_zone_data, hinit, hA]

/-- The result of the decoder when candidate A (0x0006) did not answer. -/
theorem get_zone_data_of_not_A {σ : Type} (bus : I2CBus σ) (w : World σ)
    (d : vl53l7cx_device_t) (d0 : vl53l7cx_zone_data_t) (raw0 : List Nat)
    (hinit : d.initialized = true)
    (hA : (vl53l7cx_read_register bus w d 0x0006 raw0 64).ret ≠ VL53L7CX_STATUS_OK) :
    vl53l7cx_get_zone_data bus w (some d) (some d0) raw0 =
      let r1 := vl53l7cx_read_register bus w d 0x0006 raw0 64
      let r2 := vl53l7cx_read_register bus r1.world d 0x0007 r1.data 64
      let r3 := vl53l7cx_read_register bus r2.world d 0x0008 r2.data 64
      let r4 := vl53l7cx_read_register bus r3.world d 0x0009 r3.data 64
      if r2.ret = VL53L7CX_STATUS_OK then
        { ret := VL53L7CX_STATUS_OK, dev := some d,
          data := some { copyLow r2.data zeroed with data_ready := true }, world := r2.world }
      else if r3.ret = VL53L7CX_STATUS_OK then
        { ret := VL53L7CX_STATUS_OK, dev := some d,
          data := some { copyLow r3.data zeroed with data_ready := true }, world := r3.world }
      else if r4.ret = VL53L7CX_STATUS_OK then
        { ret := VL53L7CX_STATUS_OK, dev := some d,
          data := some { copyLow r4.data zeroed with data_ready := true }, world := r4.world }
      else { ret := VL53L7CX_STATUS_ERROR, dev := some d, data := some zeroed, world := r4.world } := by
  simp [vl53l7cx_get_zone_data, hinit, hA]

/-- Zones 0..31 after method 1, whether or not the second read succeeded. -/
theorem zoneEntry_methodA_low (rawA rawB : List Nat) (b : Prop) [Decidable b] (i : Nat)
    (hi : i < 32) :
    zoneEntry (if b then decodeHigh rawB (decodeLow rawA zeroed) else decodeLow rawA zeroed) i =
      some (zoneDistance (rawWord rawA i), zoneStatus (rawWord rawA i)) := by
  have hi64 : i < 64 := by omega
  have hlen := decodeLow_lengths rawA zeroed
  rw [zeroed_lengths.1, zeroed_lengths.2] at hlen
  have hlow := zoneEntry_decodeLow rawA i hi64
  rw [if_pos hi] at hlow
  by_cases hb : b
  · rw [if_pos hb, zoneEntry_decodeHigh rawB _ i hlen.1 hlen.2 hi64, if_neg (by omega), hlow]
  · rw [if_neg hb, hlow]

/-- Zones 32..63 after method 1. -/
theorem zoneEntry_methodA_high (rawA rawB : List Nat) (b : Prop) [Decidable b] (i : Nat)
    (hlo : 32 ≤ i) (hi : i < 64) :
    zoneEntry (if b then decodeHigh rawB (decodeLow rawA zeroed) else decodeLow rawA zeroed) i =
      if b then some (zoneDistance (rawWord rawB (i - 32)), zoneStatus (rawWord rawB (i - 32)))
      else some (0, 0) := by
  have hlen := decodeLow_lengths rawA zeroed
  rw [zeroed_lengths.1, zeroed_lengths.2] at hlen
  have hlow := zoneEntry_decodeLow rawA i hi
  rw [if_neg (by omega)] at hlow
  by_cases hb : b
  · rw [if_pos hb, if_pos hb, zoneEntry_decodeHigh rawB _ i hlen.1 hlen.2 hi, if_pos hlo]
  · rw [if_neg hb, if_neg hb, hlow]

/-- The interpretation of a word, written with the word `lo + 256 * hi` of the spec. -/
theorem interpretation_eq (raw : List Nat) (k : Nat) :
    some (zoneDistance (rawWord raw k), zoneStatus (rawWord raw k)) =
      (let word := load8 raw (2 * k) + 256 * load8 raw (2 * k + 1)
       if word = 0 then some (0, 0)
       else if word > 8000 then some (0, 1)
       else some (word, 0)) := by
  rw [rawWord_eq]
  simp only [zoneDistance, zoneStatus]
  split_ifs <;> rfl

/-! ## Zone decoding: candidate A -/

/-- Claim C1: on an initialized handle, when the 64-byte read of candidate A (0x0006)
succeeds with buffer `raw`, every zone `i < 32` of the snapshot is decoded from the
little-endian word `w = raw[2i] + 256 * raw[2i+1]`: `(0, 0)` when `w = 0`, `(0, 1)` when
`w > 8000`, `(w, 0)` otherwise. -/
theorem C1_zone_decode_candidate_A {σ : Type} (bus : I2CBus σ) (w : World σ)
    (d : vl53l7cx_device_t) (d0 : vl53l7cx_zone_data_t) (raw0 : List Nat) (i : Nat)
    (hinit : d.initialized = true)
    (hA : (vl53l7cx_read_register bus w d 0x0006 raw0 64).ret = VL53L7CX_STATUS_OK)
    (hi : i < 32) :
    ∃ s, (vl53l7cx_get_zone_data bus w (some d) (some d0) raw0).data = some s ∧
      zoneEntry s i =
        (let raw := (vl53l7cx_read_register bus w d 0x0006 raw0 64).data
         let word := load8 raw (2 * i) + 256 * load8 raw (2 * i + 1)
         if word = 0 then some (0, 0)
         else if word > 8000 then some (0, 1)
         else some (word, 0)) := by
  rw [get_zone_data_of_A bus w d d0 raw0 hinit hA]
  refine ⟨_, rfl, ?_⟩
  rw [zoneEntry_ready, zoneEntry_methodA_low _ _ _ i hi]
  exact interpretation_eq _ i

/-- Witness for C1: a device answering at 0x0006 with the words `0x0000`, `0x2710`,
`0x03E8`, `8000` yields `(0, OK)`, `(0, Error)`, `(1000, OK)`, `(8000, OK)`. -/
theorem C1_zone_decode_candidate_A_witness :
    (∃ s, (vl53l7cx_get_zone_data (regFileBus [6] demoContent) demoWorld (some demoDev)
        (some zeroed) []).data = some s ∧ zoneEntry s 1 = some (0, 1)) ∧
    (∃ s, (vl53l7cx_get_zone_data (regFileBus [6] demoContent) demoWorld (some demoDev)
        (some zeroed) []).data = some s ∧ zoneEntry s 2 = some (1000, 0)) ∧
    (∃ s, (vl53l7cx_get_zone_data (regFileBus [6] demoContent) demoWorld (some demoDev)
        (some zeroed) []).data = some s ∧ zoneEntry s 3 = some (8000, 0)) ∧
    (∃ s, (vl53l7cx_get_zone_data (regFileBus [6] demoContent) demoWorld (some demoDev)
        (some zeroed) []).data = some s ∧ zoneEntry s 0 = some (0, 0)) :=
  ⟨C1_zone_decode_candidate_A (regFileBus [6] demoContent) demoWorld demoDev zeroed [] 1
      (by decide) (by decide) (by decide),
   C1_zone_decode_candidate_A (regFileBus [6] demoContent) demoWorld demoDev zeroed [] 2
      (by decide) (by decide) (by decide),
   C1_zone_decode_candidate_A (regFileBus [6] demoContent) demoWorld demoDev zeroed [] 3
      (by decide) (by decide) (by decide),
   C1_zone_decode_candidate_A (regFileBus [6] demoContent) demoWorld demoDev zeroed [] 0
      (by decide) (by decide) (by decide)⟩

/-- Claim C2: when candidate A (0x0006) answered, the decoder then performs the 64-byte read
of candidate B (0x0007); it returns success with `data_ready = true`, and every zone
`32 ≤ i < 64` is decoded from word `i - 32` of B's buffer with the interpretation of
zones 0..31 when that read succeeded, and is `(0, 0)` when it failed. -/
theorem C2_zone_decode_second_read {σ : Type} (bus : I2CBus σ) (w : World σ)
    (d : vl53l7cx_device_t) (d0 : vl53l7cx_zone_data_t) (raw0 : List Nat)
    (hinit : d.initialized = true)
    (hA : (vl53l7cx_read_register bus w d 0x0006 raw0 64).ret = VL53L7CX_STATUS_OK) :
    let rA := vl53l7cx_read_register bus w d 0x0006 raw0 64
    let rB := vl53l7cx_read_register bus rA.world d 0x0007 rA.data 64
    let res := vl53l7cx_get_zone_data bus w (some d) (some d0) raw0
    res.ret = VL53L7CX_STATUS_OK ∧ res.world = rB.world ∧
    ∃ s, res.data = some s ∧ s.data_ready = true ∧
      ∀ i, 32 ≤ i → i < 64 →
        zoneEntry s i =
          if rB.ret = VL53L7CX_STATUS_OK then
            (let word := load8 rB.data (2 * (i - 32)) + 256 * load8 rB.data (2 * (i - 32) + 1)
             if word = 0 then some (0, 0)
             else if word > 8000 then some (0, 1)
             else some (word, 0))
          else some (0, 0) := by
  intro rA rB res
  have hres := get_zone_data_of_A bus w d d0 raw0 hinit hA
  refine ⟨by rw [show res = _ from hres], by rw [show res = _ from hres], _,
    by rw [show res = _ from hres], rfl, ?_⟩
  intro i hlo hi
  rw [zoneEntry_ready, zoneEntry_methodA_high _ _ _ i hlo hi]
  by_cases hB : rB.ret = VL53L7CX_STATUS_OK
  · rw [if_pos hB, if_pos hB]
    exact interpretation_eq _ (i - 32)
  · rw [if_neg hB, if_neg hB]

/-- Witness for C2: with 0x0006 and 0x0007 both answering, zone 32 is word 0 of B's buffer
(`0x2710`, hence `(0, Error)`) and zone 33 is word 1 (`5`, hence `(5, OK)`). -/
theorem C2_zone_decode_second_read_witness :
    (vl53l7cx_get_zone_data (regFileBus [6, 7] demoContent) demoWorld (some demoDev)
        (some zeroed) []).ret = VL53L7CX_STATUS_OK ∧
    ∃ s, (vl53l7cx_get_zone_data (regFileBus [6, 7] demoContent) demoWorld (some demoDev)
        (some zeroed) []).data = some s ∧ s.data_ready = true ∧
      zoneEntry s 32 = some (0, 1) ∧ zoneEntry s 33 = some (5, 0) ∧
      zoneEntry s 63 = some (0, 0) := by
  obtain ⟨h1, -, s, hs, hr, hz⟩ := C2_zone_decode_second_read
    (regFileBus [6, 7] demoContent) demoWorld demoDev zeroed [] (by decide) (by decide)
  exact ⟨h1, s, hs, hr, hz 32 (by decide) (by decide), hz 33 (by decide) (by decide),
    hz 63 (by decide) (by decide)⟩

/-! ## The transaction log of the decoder -/

theorem read_register_log {σ : Type} (bus : I2CBus σ) (w : World σ) (d : vl53l7cx_device_t)
    (reg : Nat) (data : List Nat) (len : Nat) :
    (vl53l7cx_read_register bus w d reg data len).world.log =
      w.log ++ addrPhase d reg ::
        (if (bus.write w.bus d.i2c d.address [(reg >>> 8) &&& 0xFF, reg &&& 0xFF] 2 true).1 = 2
          then [Txn.read d.i2c d.address len false] else []) := by
  unfold vl53l7cx_read_register i2c_write_blocking i2c_read_blocking addrPhase
  by_cases h : (bus.write w.bus d.i2c d.address [(reg >>> 8) &&& 0xFF, reg &&& 0xFF] 2 true).1 = 2
  · simp [h]
  · simp [h]

theorem read_register_writes {σ : Type} (bus : I2CBus σ) (w : World σ) (d : vl53l7cx_device_t)
    (reg : Nat) (data : List Nat) (len n : Nat) (hn : n ≤ w.log.length) :
    writesSince n (vl53l7cx_read_register bus w d reg data len).world.log =
      writesSince n w.log ++ [addrPhase d reg] ∧
    n ≤ (vl53l7cx_read_register bus w d reg data len).world.log.length := by
  rw [read_register_log]
  constructor
  · unfold writesSince
    rw [List.drop_append_of_le_length hn, List.filter_append]
    by_cases h : (bus.write w.bus d.i2c d.address
        [(reg >>> 8) &&& 0xFF, reg &&& 0xFF] 2 true).1 = 2
    · simp [h, addrPhase, Txn.isWrite]
    · simp [h, addrPhase, Txn.isWrite]
  · rw [List.length_append]
    omega

theorem writesSince_self (log : List Txn) : writesSince log.length log = [] := by
  simp [writesSince]

/-- Address phases issued up to and including each read of the candidate chain. -/
theorem chain_writes {σ : Type} (bus : I2CBus σ) (w : World σ) (d : vl53l7cx_device_t)
    (raw0 : List Nat) :
    writesSince w.log.length (readA bus w d raw0).world.log = [addrPhase d 6] ∧
    writesSince w.log.length (readB bus w d raw0).world.log = [addrPhase d 6, addrPhase d 7] ∧
    writesSince w.log.length (readC bus w d raw0).world.log =
      [addrPhase d 6, addrPhase d 7, addrPhase d 8] ∧
    writesSince w.log.length (readD bus w d raw0).world.log =
      [addrPhase d 6, addrPhase d 7, addrPhase d 8, addrPhase d 9] := by
  have hA := read_register_writes bus w d 0x0006 raw0 64 w.log.length (Nat.le_refl _)
  have hB := read_register_writes bus (readA bus w d raw0).world d 0x0007
    (readA bus w d raw0).data 64 w.log.length hA.2
  have hC := read_register_writes bus (readB bus w d raw0).world d 0x0008
    (readB bus w d raw0).data 64 w.log.length hB.2
  have hD := read_register_writes bus (readC bus w d raw0).world d 0x0009
    (readC bus w d raw0).data 64 w.log.length hC.2
  rw [writesSince_self] at hA
  have eA : writesSince w.log.length (readA bus w d raw0).world.log = [addrPhase d 6] := hA.1
  have eB : writesSince w.log.length (readB bus w d raw0).world.log =
      [addrPhase d 6, addrPhase d 7] := by
    have := hB.1
    rw [eA] at this
    exact this
  have eC : writesSince w.log.length (readC bus w d raw0).world.log =
      [addrPhase d 6, addrPhase d 7, addrPhase d 8] := by
    have := hC.1
    rw [eB] at this
    exact this
  have eD : writesSince w.log.length (readD bus w d raw0).world.log =
      [addrPhase d 6, addrPhase d 7, addrPhase d 8, addrPhase d 9] := by
    have := hD.1
    rw [eC] at this
    exact this
  exact ⟨eA, eB, eC, eD⟩

/-- The decoder's result in terms of the candidate chain. -/
theorem get_zone_data_chain {σ : Type} (bus : I2CBus σ) (w : World σ) (d : vl53l7cx_device_t)
    (d0 : vl53l7cx_zone_data_t) (raw0 : List Nat) (hinit : d.initialized = true) :
    vl53l7cx_get_zone_data bus w (some d) (some d0) raw0 =
      if (readA bus w d raw0).ret = VL53L7CX_STATUS_OK then
        { ret := VL53L7CX_STATUS_OK, dev := some d,
          data := some { (if (readB bus w d raw0).ret = VL53L7CX_STATUS_OK
                          then decodeHigh (readB bus w d raw0).data
                            (decodeLow (readA bus w d raw0).data zeroed)
                          else decodeLow (readA bus w d raw0).data zeroed)
                         with data_ready := true },
          world := (readB bus w d raw0).world }
      else if (readB bus w d raw0).ret = VL53L7CX_STATUS_OK then
        { ret := VL53L7CX_STATUS_OK, dev := some d,
          data := some { copyLow (readB bus w d raw0).data zeroed with data_ready := true },
          world := (readB bus w d raw0).world }
      else if (readC bus w d raw0).ret = VL53L7CX_STATUS_OK then
        { ret := VL53L7CX_STATUS_OK, dev := some d,
          data := some { copyLow (readC bus w d raw0).data zeroed with data_ready := true },
          world := (readC bus w d raw0).world }
      else if (readD bus w d raw0).ret = VL53L7CX_STATUS_OK then
        { ret := VL53L7CX_STATUS_OK, dev := some d,
          data := some { copyLow (readD bus w d raw0).data zeroed with data_ready := true },
          world := (readD bus w d raw0).world }
      else { ret := VL53L7CX_STATUS_ERROR, dev := some d, data := some zeroed,
             world := (readD bus w d raw0).world } := by
  by_cases hA : (readA bus w d raw0).ret = VL53L7CX_STATUS_OK
  · rw [if_pos hA]
    exact get_zone_data_of_A bus w d d0 raw0 hinit hA
  · rw [if_neg hA]
    exact get_zone_data_of_not_A bus w d d0 raw0 hinit hA

/-! ## Zone decoding: the fallback candidates -/

/-- Claim C3, evaluated on the code: candidate A (0x0006) fails, candidate B (0x0007) answers
with first word `0x2710` (10000 > 8000) and second word `5`.  The fallback path stores the
word itself with status OK, `(10000, 0)`, where the interpretation of method 1 would give
`(0, 1)`; the in-range word 5 is stored as `(5, 0)`. -/
theorem C3_fallback_keeps_out_of_range_word :
    (readA (regFileBus [7] demoContent) demoWorld demoDev []).ret = VL53L7CX_STATUS_ERROR ∧
    (readB (regFileBus [7] demoContent) demoWorld demoDev []).ret = VL53L7CX_STATUS_OK ∧
    rawWord (readB (regFileBus [7] demoContent) demoWorld demoDev []).data 0 = 10000 ∧
    (vl53l7cx_get_zone_data (regFileBus [7] demoContent) demoWorld (some demoDev)
        (some zeroed) []).ret = VL53L7CX_STATUS_OK ∧
    (vl53l7cx_get_zone_data (regFileBus [7] demoContent) demoWorld (some demoDev)
        (some zeroed) []).data.bind (fun s => zoneEntry s 0) = some (10000, 0) ∧
    (vl53l7cx_get_zone_data (regFileBus [7] demoContent) demoWorld (some demoDev)
        (some zeroed) []).data.bind (fun s => zoneEntry s 1) = some (5, 0) := by
  decide

/-- Claim C4: on an initialized handle, when the reads of candidates A (0x0006) and
B (0x0007) fail and the read of candidate C (0x0008) succeeds, the decoder returns success
with `data_ready = true`; every zone `i < 32` holds C's little-endian word
`raw[2i] + 256 * raw[2i+1]` with status 0, every zone `32 ≤ i < 64` is `(0, 0)`; and the bus
writes of the call are exactly the address phases of 0x0006, 0x0007, 0x0008, in that order
(0x0009 is never addressed). -/
theorem C4_only_candidate_C {σ : Type} (bus : I2CBus σ) (w : World σ)
    (d : vl53l7cx_device_t) (d0 : vl53l7cx_zone_data_t) (raw0 : List Nat)
    (hinit : d.initialized = true)
    (hA : (readA bus w d raw0).ret ≠ VL53L7CX_STATUS_OK)
    (hB : (readB bus w d raw0).ret ≠ VL53L7CX_STATUS_OK)
    (hC : (readC bus w d raw0).ret = VL53L7CX_STATUS_OK) :
    (vl53l7cx_get_zone_data bus w (some d) (some d0) raw0).ret = VL53L7CX_STATUS_OK ∧
    writesSince w.log.length (vl53l7cx_get_zone_data bus w (some d) (some d0) raw0).world.log =
      [Txn.write d.i2c d.address [0x00, 0x06] 2 true,
       Txn.write d.i2c d.address [0x00, 0x07] 2 true,
       Txn.write d.i2c d.address [0x00, 0x08] 2 true] ∧
    ∃ s, (vl53l7cx_get_zone_data bus w (some d) (some d0) raw0).data = some s ∧
      s.data_ready = true ∧
      (∀ i, i < 32 → zoneEntry s i =
        some (load8 (readC bus w d raw0).data (2 * i) +
              256 * load8 (readC bus w d raw0).data (2 * i + 1), 0)) ∧
      (∀ i, 32 ≤ i → i < 64 → zoneEntry s i = some (0, 0)) := by
  rw [get_zone_data_chain bus w d d0 raw0 hinit, if_neg hA, if_neg hB, if_pos hC]
  refine ⟨rfl, (chain_writes bus w d raw0).2.2.1, _, rfl, rfl, ?_, ?_⟩
  · intro i hi
    rw [zoneEntry_ready, zoneEntry_copyLow _ i (by omega), if_pos hi, rawWord_eq]
  · intro i hlo hi
    rw [zoneEntry_ready, zoneEntry_copyLow _ i hi, if_neg (by omega)]

/-- Witness for C4: a device that answers at 0x0008 only. -/
theorem C4_only_candidate_C_witness :
    (vl53l7cx_get_zone_data (regFileBus [8] demoContent) demoWorld (some demoDev)
        (some zeroed) []).ret = VL53L7CX_STATUS_OK ∧
    writesSince 0 (vl53l7cx_get_zone_data (regFileBus [8] demoContent) demoWorld
        (some demoDev) (some zeroed) []).world.log =
      [Txn.write 0 0x29 [0x00, 0x06] 2 true, Txn.write 0 0x29 [0x00, 0x07] 2 true,
       Txn.write 0 0x29 [0x00, 0x08] 2 true] ∧
    ∃ s, (vl53l7cx_get_zone_data (regFileBus [8] demoContent) demoWorld (some demoDev)
        (some zeroed) []).data = some s ∧ s.data_ready = true ∧
      zoneEntry s 0 = some (10000, 0) ∧ zoneEntry s 32 = some (0, 0) := by
  obtain ⟨h1, h2, s, hs, hr, hlow, hhigh⟩ := C4_only_candidate_C
    (regFileBus [8] demoContent) demoWorld demoDev zeroed [] (by decide) (by decide)
    (by decide) (by decide)
  exact ⟨h1, h2, s, hs, hr, hlow 0 (by decide), hhigh 32 (by decide) (by decide)⟩

/-- Claim C5: on an initialized handle, when none of the four candidate reads (0x0006,
0x0007, 0x0008, 0x0009) succeeds, the decoder returns the error result, the snapshot is
entirely zero with `data_ready = false`, and the bus writes of the call are exactly the four
address phases, once each, in that order. -/
theorem C5_no_candidate_answers {σ : Type} (bus : I2CBus σ) (w : World σ)
    (d : vl53l7cx_device_t) (d0 : vl53l7cx_zone_data_t) (raw0 : List Nat)
    (hinit : d.initialized = true)
    (hA : (readA bus w d raw0).ret ≠ VL53L7CX_STATUS_OK)
    (hB : (readB bus w d raw0).ret ≠ VL53L7CX_STATUS_OK)
    (hC : (readC bus w d raw0).ret ≠ VL53L7CX_STATUS_OK)
    (hD : (readD bus w d raw0).ret ≠ VL53L7CX_STATUS_OK) :
    (vl53l7cx_get_zone_data bus w (some d) (some d0) raw0).ret = VL53L7CX_STATUS_ERROR ∧
    (vl53l7cx_get_zone_data bus w (some d) (some d0) raw0).data =
      some { distance_mm := List.replicate 64 0, signal_rate := List.replicate 64 0,
             ambient_rate := List.replicate 64 0, sigma := List.replicate 64 0,
             range_status := List.replicate 64 0, data_ready := false } ∧
    writesSince w.log.length (vl53l7cx_get_zone_data bus w (some d) (some d0) raw0).world.log =
      [Txn.write d.i2c d.address [0x00, 0x06] 2 true,
       Txn.write d.i2c d.address [0x00, 0x07] 2 true,
       Txn.write d.i2c d.address [0x00, 0x08] 2 true,
       Txn.write d.i2c d.address [0x00, 0x09] 2 true] := by
  rw [get_zone_data_chain bus w d d0 raw0 hinit, if_neg hA, if_neg hB, if_neg hC, if_neg hD]
  exact ⟨rfl, rfl, (chain_writes bus w d raw0).2.2.2⟩

/-- Witness for C5: a device that answers at no register, called with a snapshot that was
not zero before. -/
theorem C5_no_candidate_answers_witness :
    (vl53l7cx_get_zone_data (regFileBus [] demoContent) demoWorld (some demoDev)
        (some { zeroed with distance_mm := List.replicate 64 7, data_ready := true }) []).ret
      = VL53L7CX_STATUS_ERROR ∧
    (vl53l7cx_get_zone_data (regFileBus [] demoContent) demoWorld (some demoDev)
        (some { zeroed with distance_mm := List.replicate 64 7, data_ready := true }) []).data
      = some { distance_mm := List.replicate 64 0, signal_rate := List.replicate 64 0,
               ambient_rate := List.replicate 64 0, sigma := List.replicate 64 0,
               range_status := List.replicate 64 0, data_ready := false } ∧
    writesSince 0 (vl53l7cx_get_zone_data (regFileBus [] demoContent) demoWorld
        (some demoDev)
        (some { zeroed with distance_mm := List.replicate 64 7, data_ready := true })
        []).world.log =
      [Txn.write 0 0x29 [0x00, 0x06] 2 true, Txn.write 0 0x29 [0x00, 0x07] 2 true,
       Txn.write 0 0x29 [0x00, 0x08] 2 true, Txn.write 0 0x29 [0x00, 0x09] 2 true] :=
  C5_no_candidate_answers (regFileBus [] demoContent) demoWorld demoDev
    { zeroed with distance_mm := List.replicate 64 7, data_ready := true } []
    (by decide) (by decide) (by decide) (by decide) (by decide)

/-! ## Which candidates a call addresses -/

theorem decodeLow_channels (raw : List Nat) (d : vl53l7cx_zone_data_t) :
    (decodeLow raw d).signal_rate = d.signal_rate ∧
    (decodeLow raw d).ambient_rate = d.ambient_rate ∧ (decodeLow raw d).sigma = d.sigma := by
  rw [decodeLow_eq]
  exact ⟨rfl, rfl, rfl⟩

theorem decodeHigh_channels (raw : List Nat) (d : vl53l7cx_zone_data_t) :
    (decodeHigh raw d).signal_rate = d.signal_rate ∧
    (decodeHigh raw d).ambient_rate = d.ambient_rate ∧ (decodeHigh raw d).sigma = d.sigma := by
  rw [decodeHigh_eq]
  exact ⟨rfl, rfl, rfl⟩

theorem copyLow_channels (raw : List Nat) (d : vl53l7cx_zone_data_t) :
    (copyLow raw d).signal_rate = d.signal_rate ∧
    (copyLow raw d).ambient_rate = d.ambient_rate ∧ (copyLow raw d).sigma = d.sigma := by
  rw [copyLow_eq]
  exact ⟨rfl, rfl, rfl⟩

/-- Claim C7: on an initialized handle the outcome of `vl53l7cx_get_zone_data` is the same
whatever the snapshot held before the call, and after the call the `signal_rate`,
`ambient_rate` and `sigma` channels are all zero. -/
theorem C7_snapshot_independent_of_prior {σ : Type} (bus : I2CBus σ) (w : World σ)
    (d : vl53l7cx_device_t) (d0 d0' : vl53l7cx_zone_data_t) (raw0 : List Nat)
    (hinit : d.initialized = true) :
    vl53l7cx_get_zone_data bus w (some d) (some d0) raw0 =
      vl53l7cx_get_zone_data bus w (some d) (some d0') raw0 ∧
    ∃ s, (vl53l7cx_get_zone_data bus w (some d) (some d0) raw0).data = some s ∧
      s.signal_rate = List.replicate 64 0 ∧ s.ambient_rate = List.replicate 64 0 ∧
      s.sigma = List.replicate 64 0 := by
  constructor
  · rw [get_zone_data_chain bus w d d0 raw0 hinit, get_zone_data_chain bus w d d0' raw0 hinit]
  · rw [get_zone_data_chain bus w d d0 raw0 hinit]
    have hz : zeroed.signal_rate = List.replicate 64 0 ∧
        zeroed.ambient_rate = List.replicate 64 0 ∧ zeroed.sigma = List.replicate 64 0 :=
      ⟨rfl, rfl, rfl⟩
    have hl := decodeLow_channels (readA bus w d raw0).data zeroed
    have hh := decodeHigh_channels (readB bus w d raw0).data
      (decodeLow (readA bus w d raw0).data zeroed)
    have cB := copyLow_channels (readB bus w d raw0).data zeroed
    have cC := copyLow_channels (readC bus w d raw0).data zeroed
    have cD := copyLow_channels (readD bus w d raw0).data zeroed
    by_cases hA : (readA bus w d raw0).ret = VL53L7CX_STATUS_OK
    · rw [if_pos hA]
      by_cases hB : (readB bus w d raw0).ret = VL53L7CX_STATUS_OK
      · rw [if_pos hB]
        exact ⟨_, rfl, hh.1.trans (hl.1.trans hz.1), hh.2.1.trans (hl.2.1.trans hz.2.1),
          hh.2.2.trans (hl.2.2.trans hz.2.2)⟩
      · rw [if_neg hB]
        exact ⟨_, rfl, hl.1.trans hz.1, hl.2.1.trans hz.2.1, hl.2.2.trans hz.2.2⟩
    · rw [if_neg hA]
      by_cases hB : (readB bus w d raw0).ret = VL53L7CX_STATUS_OK
      · rw [if_pos hB]
        exact ⟨_, rfl, cB.1.trans hz.1, cB.2.1.trans hz.2.1, cB.2.2.trans hz.2.2⟩
      · rw [if_neg hB]
        by_cases hC : (readC bus w d raw0).ret = VL53L7CX_STATUS_OK
        · rw [if_pos hC]
          exact ⟨_, rfl, cC.1.trans hz.1, cC.2.1.trans hz.2.1, cC.2.2.trans hz.2.2⟩
        · rw [if_neg hC]
          by_cases hD : (readD bus w d raw0).ret = VL53L7CX_STATUS_OK
          · rw [if_pos hD]
            exact ⟨_, rfl, cD.1.trans hz.1, cD.2.1.trans hz.2.1, cD.2.2.trans hz.2.2⟩
          · rw [if_neg hD]
            exact ⟨_, rfl, hz.1, hz.2.1, hz.2.2⟩

/-- Witness for C7: the same device read into a zero snapshot and into a snapshot full of
stale values. -/
theorem C7_snapshot_independent_of_prior_witness :
    vl53l7cx_get_zone_data (regFileBus [6, 7] demoContent) demoWorld (some demoDev)
        (some zeroed) [] =
      vl53l7cx_get_zone_data (regFileBus [6, 7] demoContent) demoWorld (some demoDev)
        (some { distance_mm := List.replicate 64 9, signal_rate := List.replicate 64 9,
                ambient_rate := List.replicate 64 9, sigma := List.replicate 64 9,
                range_status := List.replicate 64 9, data_ready := true }) [] ∧
    ∃ s, (vl53l7cx_get_zone_data (regFileBus [6, 7] demoContent) demoWorld (some demoDev)
        (some zeroed) []).data = some s ∧
      s.signal_rate = List.replicate 64 0 ∧ s.ambient_rate = List.replicate 64 0 ∧
      s.sigma = List.replicate 64 0 :=
  C7_snapshot_independent_of_prior (regFileBus [6, 7] demoContent) demoWorld demoDev zeroed
    { distance_mm := List.replicate 64 9, signal_rate := List.replicate 64 9,
      ambient_rate := List.replicate 64 9, sigma := List.replicate 64 9,
      range_status := List.replicate 64 9, data_ready := true } [] (by decide)

/-! ## Register transport -/

/-- The high address byte of a 16-bit register needs no masking. -/
theorem reg_high_byte (reg : Nat) (hreg : reg < 65536) : (reg >>> 8) &&& 0xFF = reg >>> 8 := by
  have h : reg >>> 8 < 256 := by
    rw [Nat.shiftRight_eq_div_pow]
    omega
  have h255 : (0xFF : Nat) = 2 ^ 8 - 1 := by norm_num
  rw [h255, Nat.and_pow_two_sub_one_eq_mod]
  exact Nat.mod_eq_of_lt h

/-- Claim C8: for a 16-bit register `reg` and a payload of `len ≤ 255` bytes,
`vl53l7cx_write_register` issues exactly one bus transaction, a write with stop to the
handle's device address of the `len + 2` bytes `[reg >> 8, reg & 0xFF]` followed by the
payload, and returns OK exactly when the bus reports `len + 2` bytes written (ERROR
otherwise). -/
theorem C8_write_register_framing {σ : Type} (bus : I2CBus σ) (w : World σ)
    (d : vl53l7cx_device_t) (reg : Nat) (data : List Nat) (len : Nat)
    (hreg : reg < 65536) (hdata : data.length = len) (hlen : len < 256) :
    let frame := [reg >>> 8, reg &&& 0xFF] ++ data
    let a := bus.write w.bus d.i2c d.address frame (len + 2) false
    let r := vl53l7cx_write_register bus w d reg data len
    frame.length = len + 2 ∧
    r.2.log = w.log ++ [Txn.write d.i2c d.address frame (len + 2) false] ∧
    r.2.bus = a.2 ∧
    (r.1 = VL53L7CX_STATUS_OK ↔ a.1 = (len : Int) + 2) ∧
    (r.1 ≠ VL53L7CX_STATUS_OK → r.1 = VL53L7CX_STATUS_ERROR) := by
  intro frame a r
  have hlen' := hlen
  have htake : data.take len = data := by
    rw [← hdata]
    exact List.take_length data
  have hr : r = (if a.1 = (len : Int) + 2 then VL53L7CX_STATUS_OK else VL53L7CX_STATUS_ERROR,
      { bus := a.2, log := w.log ++ [Txn.write d.i2c d.address frame (len + 2) false] }) := by
    show vl53l7cx_write_register bus w d reg data len = _
    unfold vl53l7cx_write_register i2c_write_blocking
    simp only [htake, reg_high_byte reg hreg]
  rw [hr]
  refine ⟨by simp [frame, hdata], rfl, rfl, ?_, ?_⟩
  · by_cases h : a.1 = (len : Int) + 2
    · simp [h]
    · simp [h, VL53L7CX_STATUS_OK, VL53L7CX_STATUS_ERROR]
  · by_cases h : a.1 = (len : Int) + 2
    · simp [h]
    · simp [h]

/-- Witness for C8: the start command, one byte `0x40` written to register `0x0087`. -/
theorem C8_write_register_framing_witness :
    (vl53l7cx_write_register (regFileBus [] demoContent) demoWorld demoDev 0x0087
        [0x40] 1).2.log = [Txn.write 0 0x29 [0x00, 0x87, 0x40] 3 false] ∧
    ((vl53l7cx_write_register (regFileBus [] demoContent) demoWorld demoDev 0x0087
        [0x40] 1).1 = VL53L7CX_STATUS_OK ↔
      ((regFileBus [] demoContent).write 0 0 0x29 [0x00, 0x87, 0x40] 3 false).1 = 3) := by
  obtain ⟨-, h2, -, h4, -⟩ := C8_write_register_framing (regFileBus [] demoContent) demoWorld
    demoDev 0x0087 [0x40] 1 (by decide) (by decide) (by decide)
  exact ⟨h2, h4⟩

/-- Claim C9: `vl53l7cx_read_register` first writes the two bytes `[reg >> 8, reg & 0xFF]`
with the stop condition suppressed.  If the bus does not report 2 bytes written it returns
ERROR, the caller's buffer is untouched and that write is the only transaction.  Otherwise
it issues exactly one read of `len` bytes with stop, and returns OK exactly when the bus
reports `len` bytes read (ERROR otherwise).  Nothing is issued twice. -/
theorem C9_read_register_phases {σ : Type} (bus : I2CBus σ) (w : World σ)
    (d : vl53l7cx_device_t) (reg : Nat) (data : List Nat) (len : Nat)
    (hreg : reg < 65536) (hlen : len < 256) :
    let a := bus.write w.bus d.i2c d.address [reg >>> 8, reg &&& 0xFF] 2 true
    let q := bus.read a.2 d.i2c d.address len false
    let r := vl53l7cx_read_register bus w d reg data len
    (a.1 ≠ 2 →
      r.ret = VL53L7CX_STATUS_ERROR ∧ r.data = data ∧ r.world.bus = a.2 ∧
      r.world.log = w.log ++ [Txn.write d.i2c d.address [reg >>> 8, reg &&& 0xFF] 2 true]) ∧
    (a.1 = 2 →
      (r.ret = VL53L7CX_STATUS_OK ↔ q.1 = (len : Int)) ∧
      (r.ret ≠ VL53L7CX_STATUS_OK → r.ret = VL53L7CX_STATUS_ERROR) ∧
      r.data = memWrite data q.2.1 len ∧ r.world.bus = q.2.2 ∧
      r.world.log = w.log ++ [Txn.write d.i2c d.address [reg >>> 8, reg &&& 0xFF] 2 true,
                              Txn.read d.i2c d.address len false]) := by
  intro a q r
  have hlen' := hlen
  have hr : r = (if a.1 ≠ 2 then
        { ret := VL53L7CX_STATUS_ERROR, data := data,
          world := { bus := a.2, log := w.log ++
            [Txn.write d.i2c d.address [reg >>> 8, reg &&& 0xFF] 2 true] } }
      else
        { ret := if q.1 = (len : Int) then VL53L7CX_STATUS_OK else VL53L7CX_STATUS_ERROR,
          data := memWrite data q.2.1 len,
          world := { bus := q.2.2, log := (w.log ++
            [Txn.write d.i2c d.address [reg >>> 8, reg &&& 0xFF] 2 true]) ++
            [Txn.read d.i2c d.address len false] } } : RegRead σ) := by
    show vl53l7cx_read_register bus w d reg data len = _
    unfold vl53l7cx_read_register i2c_write_blocking i2c_read_blocking
    simp only [reg_high_byte reg hreg]
  rw [hr]
  constructor
  · intro ha
    rw [if_pos ha]
    exact ⟨rfl, rfl, rfl, rfl⟩
  · intro ha
    rw [if_neg (not_not.mpr ha)]
    refine ⟨?_, ?_, rfl, rfl, by simp⟩
    · by_cases h : q.1 = (len : Int)
      · simp [h]
      · simp [h, VL53L7CX_STATUS_OK, VL53L7CX_STATUS_ERROR]
    · by_cases h : q.1 = (len : Int)
      · simp [h]
      · simp [h]

/-- Witness for C9: a 4-byte read of register `0x0006` on a device that answers there. -/
theorem C9_read_register_phases_witness :
    (vl53l7cx_read_register (regFileBus [6] demoContent) demoWorld demoDev 0x0006
        [9, 9, 9, 9, 9] 4).ret = VL53L7CX_STATUS_OK ∧
    (vl53l7cx_read_register (regFileBus [6] demoContent) demoWorld demoDev 0x0006
        [9, 9, 9, 9, 9] 4).data = [0x00, 0x00, 0x10, 0x27, 9] ∧
    (vl53l7cx_read_register (regFileBus [6] demoContent) demoWorld demoDev 0x0006
        [9, 9, 9, 9, 9] 4).world.log =
      [Txn.write 0 0x29 [0x00, 0x06] 2 true, Txn.read 0 0x29 4 false] := by
  obtain ⟨hok, -, hdata, -, hlog⟩ := (C9_read_register_phases (regFileBus [6] demoContent)
    demoWorld demoDev 0x0006 [9, 9, 9, 9, 9] 4 (by decide) (by decide)).2 (by decide)
  exact ⟨hok.mpr (by decide), hdata.trans (by decide), hlog⟩

/-! ## Round trip on the echoing mock bus -/

/-- Claim C10: on the echoing mock bus, for every register address in `0x0000..0xFFFF` and
every payload of 1 to 252 bytes, `vl53l7cx_write_register` followed by
`vl53l7cx_read_register` of the same register and length both return OK, and the bytes
read are the bytes written. -/
theorem C10_write_read_round_trip (w : World EchoState) (d : vl53l7cx_device_t) (reg : Nat)
    (payload dst : List Nat) (hreg : reg < 65536)
    (hmin : 1 ≤ payload.length) (hmax : payload.length ≤ 252) :
    let wr := vl53l7cx_write_register echoBus w d reg payload payload.length
    let rd := vl53l7cx_read_register echoBus wr.2 d reg dst payload.length
    wr.1 = VL53L7CX_STATUS_OK ∧ rd.ret = VL53L7CX_STATUS_OK ∧
      rd.data.take payload.length = payload := by
  intro wr rd
  have hreg' := hreg
  have hmax' := hmax
  have hne : payload ≠ [] := by
    intro h
    rw [h] at hmin
    simp at hmin
  have hwr : wr = (VL53L7CX_STATUS_OK,
      { bus := { ptr := ((reg >>> 8) &&& 0xFF, reg &&& 0xFF),
                 mem := fun k => if k = ((reg >>> 8) &&& 0xFF, reg &&& 0xFF) ∧ payload ≠ []
                          then payload else w.bus.mem k },
        log := w.log ++ [Txn.write d.i2c d.address
          ([(reg >>> 8) &&& 0xFF, reg &&& 0xFF] ++ payload) (payload.length + 2) false] }) := by
    show vl53l7cx_write_register echoBus w d reg payload payload.length = _
    have hpos : 0 < payload.length := hmin
    simp [vl53l7cx_write_register, i2c_write_blocking, echoBus, List.take_length, hne, hpos]
  have hrd : rd.ret = VL53L7CX_STATUS_OK ∧ rd.data = payload ++ dst.drop payload.length := by
    show (vl53l7cx_read_register echoBus wr.2 d reg dst payload.length).ret = _ ∧
      (vl53l7cx_read_register echoBus wr.2 d reg dst payload.length).data = _
    rw [hwr]
    simp [vl53l7cx_read_register, i2c_write_blocking, i2c_read_blocking, echoBus, memWrite,
      hne, List.take_length]
  refine ⟨by rw [hwr], hrd.1, ?_⟩
  rw [hrd.2, List.take_left']
  rfl

/-- Witness for C10: three bytes written to register `0x1234` and read back. -/
theorem C10_write_read_round_trip_witness :
    (vl53l7cx_write_register echoBus { bus := { ptr := (0, 0), mem := fun _ => [] }, log := [] }
        demoDev 0x1234 [0xDE, 0xAD, 0x01] 3).1 = VL53L7CX_STATUS_OK ∧
    (vl53l7cx_read_register echoBus
        (vl53l7cx_write_register echoBus
          { bus := { ptr := (0, 0), mem := fun _ => [] }, log := [] }
          demoDev 0x1234 [0xDE, 0xAD, 0x01] 3).2
        demoDev 0x1234 [0, 0, 0, 0] 3).ret = VL53L7CX_STATUS_OK ∧
    (vl53l7cx_read_register echoBus
        (vl53l7cx_write_register echoBus
          { bus := { ptr := (0, 0), mem := fun _ => [] }, log := [] }
          demoDev 0x1234 [0xDE, 0xAD, 0x01] 3).2
        demoDev 0x1234 [0, 0, 0, 0] 3).data.take 3 = [0xDE, 0xAD, 0x01] :=
  C10_write_read_round_trip { bus := { ptr := (0, 0), mem := fun _ => [] }, log := [] }
    demoDev 0x1234 [0xDE, 0xAD, 0x01] [0, 0, 0, 0] (by decide) (by decide) (by decide)

/-! ## Lifecycle -/

/-- A one-byte command write: what it logs and what it returns. -/
theorem write_register_command {σ : Type} (bus : I2CBus σ) (w : World σ)
    (d : vl53l7cx_device_t) (hi lo cmd reg : Nat)
    (hhi : (reg >>> 8) &&& 0xFF = hi) (hlo : reg &&& 0xFF = lo) :
    vl53l7cx_write_register bus w d reg [cmd] 1 =
      (if (bus.write w.bus d.i2c d.address [hi, lo, cmd] 3 false).1 = 3
        then VL53L7CX_STATUS_OK else VL53L7CX_STATUS_ERROR,
       { bus := (bus.write w.bus d.i2c d.address [hi, lo, cmd] 3 false).2,
         log := w.log ++ [Txn.write d.i2c d.address [hi, lo, cmd] 3 false] }) := by
  unfold vl53l7cx_write_register i2c_write_blocking
  simp [hhi, hlo]

theorem start_ranging_initialized {σ : Type} (bus : I2CBus σ) (w : World σ)
    (d : vl53l7cx_device_t) (hinit : d.initialized = true) :
    vl53l7cx_start_ranging bus w (some d) =
      { ret := if (bus.write w.bus d.i2c d.address [0x00, 0x87, 0x40] 3 false).1 = 3
          then VL53L7CX_STATUS_OK else VL53L7CX_STATUS_ERROR,
        dev := some d,
        world := { bus := (bus.write w.bus d.i2c d.address [0x00, 0x87, 0x40] 3 false).2,
                   log := w.log ++ [Txn.write d.i2c d.address [0x00, 0x87, 0x40] 3 false] } } := by
  unfold vl53l7cx_start_ranging
  simp only [hinit]
  rw [write_register_command bus w d 0x00 0x87 0x40 VL53L7CX_REG_SYSTEM__MODE_START
    (by decide) (by decide)]
  rfl

theorem stop_ranging_initialized {σ : Type} (bus : I2CBus σ) (w : World σ)
    (d : vl53l7cx_device_t) (hinit : d.initialized = true) :
    vl53l7cx_stop_ranging bus w (some d) =
      { ret := if (bus.write w.bus d.i2c d.address [0x00, 0x87, 0x00] 3 false).1 = 3
          then VL53L7CX_STATUS_OK else VL53L7CX_STATUS_ERROR,
        dev := some d,
        world := { bus := (bus.write w.bus d.i2c d.address [0x00, 0x87, 0x00] 3 false).2,
                   log := w.log ++ [Txn.write d.i2c d.address [0x00, 0x87, 0x00] 3 false] } } := by
  unfold vl53l7cx_stop_ranging
  simp only [hinit]
  rw [write_register_command bus w d 0x00 0x87 0x00 VL53L7CX_REG_SYSTEM__MODE_START
    (by decide) (by decide)]
  rfl

theorem clear_interrupt_initialized {σ : Type} (bus : I2CBus σ) (w : World σ)
    (d : vl53l7cx_device_t) (hinit : d.initialized = true) :
    vl53l7cx_clear_interrupt bus w (some d) =
      { ret := if (bus.write w.bus d.i2c d.address [0x00, 0x86, 0x01] 3 false).1 = 3
          then VL53L7CX_STATUS_OK else VL53L7CX_STATUS_ERROR,
        dev := some d,
        world := { bus := (bus.write w.bus d.i2c d.address [0x00, 0x86, 0x01] 3 false).2,
                   log := w.log ++ [Txn.write d.i2c d.address [0x00, 0x86, 0x01] 3 false] } } := by
  unfold vl53l7cx_clear_interrupt
  simp only [hinit]
  rw [write_register_command bus w d 0x00 0x86 0x01 VL53L7CX_REG_SYSTEM__INTERRUPT_CLEAR
    (by decide) (by decide)]
  rfl

/-- Every operation gated on the flag fails on a handle whose flag is clear, leaving the
world, the handle and the caller's objects as they were. -/
theorem uninitialized_rejected {σ : Type} (bus : I2CBus σ) (w : World σ)
    (d : vl53l7cx_device_t) (hun : d.initialized = false) :
    vl53l7cx_start_ranging bus w (some d) =
      { ret := VL53L7CX_STATUS_ERROR, dev := some d, world := w } ∧
    vl53l7cx_stop_ranging bus w (some d) =
      { ret := VL53L7CX_STATUS_ERROR, dev := some d, world := w } ∧
    vl53l7cx_clear_interrupt bus w (some d) =
      { ret := VL53L7CX_STATUS_ERROR, dev := some d, world := w } ∧
    (∀ ready last now, vl53l7cx_get_data_ready (some d) ready last now =
      { ret := VL53L7CX_STATUS_ERROR, dev := some d, ready := ready, last_check := last }) ∧
    (∀ data raw, vl53l7cx_get_zone_data bus w (some d) data raw =
      { ret := VL53L7CX_STATUS_ERROR, dev := some d, data := data, world := w }) := by
  refine ⟨?_, ?_, ?_, ?_, ?_⟩
  · simp [vl53l7cx_start_ranging, hun]
  · simp [vl53l7cx_stop_ranging, hun]
  · simp [vl53l7cx_clear_interrupt, hun]
  · intro ready last now
    cases ready <;> simp [vl53l7cx_get_data_ready, hun]
  · intro data raw
    cases data <;> simp [vl53l7cx_get_zone_data, hun]

theorem init_outcome {σ : Type} (bus : I2CBus σ) (w : World σ) (dev0 : vl53l7cx_device_t)
    (i2c address : Nat) :
    vl53l7cx_init bus w (some dev0) (some i2c) address =
      { ret := if (bus.read w.bus i2c address 1 false).1 = 1
          then VL53L7CX_STATUS_OK else VL53L7CX_STATUS_ERROR,
        dev := some { i2c := i2c, address := address,
                      initialized := decide ((bus.read w.bus i2c address 1 false).1 = 1) },
        world := { bus := (bus.read w.bus i2c address 1 false).2.2,
                   log := w.log ++ [Txn.read i2c address 1 false] } } := by
  unfold vl53l7cx_init i2c_read_blocking
  by_cases h : (bus.read w.bus i2c address 1 false).1 = 1
  · simp [h]
  · simp [h]

theorem get_data_ready_initialized (d : vl53l7cx_device_t) (b : Bool) (last now : Nat)
    (hinit : d.initialized = true) :
    vl53l7cx_get_data_ready (some d) (some b) last now =
      if sub32 (now % UINT32_SIZE) last > 100 then
        { ret := VL53L7CX_STATUS_OK, dev := some d, ready := some true,
          last_check := now % UINT32_SIZE }
      else
        { ret := VL53L7CX_STATUS_OK, dev := some d, ready := some false,
          last_check := last } := by
  simp [vl53l7cx_get_data_ready, hinit]

/-- Claim C11: on a bus that completes every transaction, `init`, `start_ranging`,
`stop_ranging`, `start_ranging`, `stop_ranging` called in this order all return OK (so does
the shorter sequence `init`, `start_ranging`, `stop_ranging`); and `start_ranging` on a
handle whose `initialized` flag is false returns ERROR leaving the world, hence the bus and
the transaction log, as it was. -/
theorem C11_lifecycle_sequences {σ : Type} (bus : I2CBus σ) (w : World σ)
    (dev0 : vl53l7cx_device_t) (i2c address : Nat)
    (hwrite : ∀ s i a src len nostop, (bus.write s i a src len nostop).1 = (len : Int))
    (hread : ∀ s i a len nostop, (bus.read s i a len nostop).1 = (len : Int)) :
    let c1 := vl53l7cx_init bus w (some dev0) (some i2c) address
    let c2 := vl53l7cx_start_ranging bus c1.world c1.dev
    let c3 := vl53l7cx_stop_ranging bus c2.world c2.dev
    let c4 := vl53l7cx_start_ranging bus c3.world c3.dev
    let c5 := vl53l7cx_stop_ranging bus c4.world c4.dev
    (c1.ret = VL53L7CX_STATUS_OK ∧ c2.ret = VL53L7CX_STATUS_OK ∧
      c3.ret = VL53L7CX_STATUS_OK ∧ c4.ret = VL53L7CX_STATUS_OK ∧
      c5.ret = VL53L7CX_STATUS_OK) ∧
    ∀ (w0 : World σ) (d : vl53l7cx_device_t), d.initialized = false →
      vl53l7cx_start_ranging bus w0 (some d) =
        { ret := VL53L7CX_STATUS_ERROR, dev := some d, world := w0 } := by
  intro c1 c2 c3 c4 c5
  have hstart : ∀ (w0 : World σ) (d : vl53l7cx_device_t), d.initialized = true →
      (vl53l7cx_start_ranging bus w0 (some d)).ret = VL53L7CX_STATUS_OK ∧
      (vl53l7cx_start_ranging bus w0 (some d)).dev = some d := by
    intro w0 d hd
    rw [start_ranging_initialized bus w0 d hd]
    exact ⟨if_pos (hwrite _ _ _ _ 3 _), rfl⟩
  have hstop : ∀ (w0 : World σ) (d : vl53l7cx_device_t), d.initialized = true →
      (vl53l7cx_stop_ranging bus w0 (some d)).ret = VL53L7CX_STATUS_OK ∧
      (vl53l7cx_stop_ranging bus w0 (some d)).dev = some d := by
    intro w0 d hd
    rw [stop_ranging_initialized bus w0 d hd]
    exact ⟨if_pos (hwrite _ _ _ _ 3 _), rfl⟩
  have h1 : c1.ret = VL53L7CX_STATUS_OK ∧
      c1.dev = some { i2c := i2c, address := address, initialized := true } := by
    show (vl53l7cx_init bus w (some dev0) (some i2c) address).ret = _ ∧
      (vl53l7cx_init bus w (some dev0) (some i2c) address).dev = _
    rw [init_outcome]
    have := hread w.bus i2c address 1 false
    simp only [Nat.cast_one] at this
    simp [this]
  have h2 : c2.ret = VL53L7CX_STATUS_OK ∧
      c2.dev = some { i2c := i2c, address := address, initialized := true } := by
    show (vl53l7cx_start_ranging bus c1.world c1.dev).ret = _ ∧
      (vl53l7cx_start_ranging bus c1.world c1.dev).dev = _
    rw [h1.2]
    exact hstart c1.world _ rfl
  have h3 : c3.ret = VL53L7CX_STATUS_OK ∧
      c3.dev = some { i2c := i2c, address := address, initialized := true } := by
    show (vl53l7cx_stop_ranging bus c2.world c2.dev).ret = _ ∧
      (vl53l7cx_stop_ranging bus c2.world c2.dev).dev = _
    rw [h2.2]
    exact hstop c2.world _ rfl
  have h4 : c4.ret = VL53L7CX_STATUS_OK ∧
      c4.dev = some { i2c := i2c, address := address, initialized := true } := by
    show (vl53l7cx_start_ranging bus c3.world c3.dev).ret = _ ∧
      (vl53l7cx_start_ranging bus c3.world c3.dev).dev = _
    rw [h3.2]
    exact hstart c3.world _ rfl
  have h5 : c5.ret = VL53L7CX_STATUS_OK ∧
      c5.dev = some { i2c := i2c, address := address, initialized := true } := by
    show (vl53l7cx_stop_ranging bus c4.world c4.dev).ret = _ ∧
      (vl53l7cx_stop_ranging bus c4.world c4.dev).dev = _
    rw [h4.2]
    exact hstop c4.world _ rfl
  exact ⟨⟨h1.1, h2.1, h3.1, h4.1, h5.1⟩,
    fun w0 d hd => (uninitialized_rejected bus w0 d hd).1⟩

/-- Witness for C11: the five-step session on the bus that accepts everything. -/
theorem C11_lifecycle_sequences_witness :
    (sessionInit.ret = VL53L7CX_STATUS_OK ∧ sessionStart.ret = VL53L7CX_STATUS_OK ∧
      sessionStop.ret = VL53L7CX_STATUS_OK ∧ sessionRestart.ret = VL53L7CX_STATUS_OK ∧
      sessionRestop.ret = VL53L7CX_STATUS_OK) ∧
    vl53l7cx_start_ranging acceptAllBus unitWorld (some freshDev) =
      { ret := VL53L7CX_STATUS_ERROR, dev := some freshDev, world := unitWorld } :=
  ⟨(C11_lifecycle_sequences acceptAllBus unitWorld freshDev 0 0x29
      (fun _ _ _ _ _ _ => rfl) (fun _ _ _ _ _ => rfl)).1,
   (C11_lifecycle_sequences acceptAllBus unitWorld freshDev 0 0x29
      (fun _ _ _ _ _ _ => rfl) (fun _ _ _ _ _ => rfl)).2 unitWorld freshDev rfl⟩

/-- Claim C12 fails as stated: on a handle that has been initialized and on which ranging
was never started, `vl53l7cx_stop_ranging` and `vl53l7cx_clear_interrupt` issue their bus
write and return OK, and `vl53l7cx_get_data_ready` returns OK; the same after a stop. -/
theorem C12_stop_accepted_without_start :
    (vl53l7cx_stop_ranging acceptAllBus sessionInit.world sessionInit.dev).ret =
      VL53L7CX_STATUS_OK ∧
    (vl53l7cx_stop_ranging acceptAllBus sessionInit.world sessionInit.dev).world.log =
      [Txn.read 0 0x29 1 false, Txn.write 0 0x29 [0x00, 0x87, 0x00] 3 false] ∧
    (vl53l7cx_clear_interrupt acceptAllBus sessionInit.world sessionInit.dev).ret =
      VL53L7CX_STATUS_OK ∧
    (vl53l7cx_clear_interrupt acceptAllBus sessionInit.world sessionInit.dev).world.log =
      [Txn.read 0 0x29 1 false, Txn.write 0 0x29 [0x00, 0x86, 0x01] 3 false] ∧
    (vl53l7cx_get_data_ready sessionInit.dev (some false) 0 1000).ret = VL53L7CX_STATUS_OK ∧
    (vl53l7cx_stop_ranging acceptAllBus sessionStop.world sessionStop.dev).ret =
      VL53L7CX_STATUS_OK := by
  decide

/-- Claim C12, amended: the only state these operations test is the `initialized` flag.  On
an initialized handle, whether or not ranging was started, `vl53l7cx_stop_ranging` and
`vl53l7cx_clear_interrupt` issue their one register write and return OK exactly when the bus
reports 3 bytes, and `vl53l7cx_get_data_ready` returns OK.  On a handle whose flag is false
each of the three returns ERROR, and the two writers leave the world untouched. -/
theorem C12_only_initialized_flag_is_tested {σ : Type} (bus : I2CBus σ) (w : World σ)
    (d : vl53l7cx_device_t) (ready : Bool) (last now : Nat) (hinit : d.initialized = true) :
    ((vl53l7cx_stop_ranging bus w (some d)).world.log =
        w.log ++ [Txn.write d.i2c d.address [0x00, 0x87, 0x00] 3 false] ∧
      ((vl53l7cx_stop_ranging bus w (some d)).ret = VL53L7CX_STATUS_OK ↔
        (bus.write w.bus d.i2c d.address [0x00, 0x87, 0x00] 3 false).1 = 3) ∧
      (vl53l7cx_clear_interrupt bus w (some d)).world.log =
        w.log ++ [Txn.write d.i2c d.address [0x00, 0x86, 0x01] 3 false] ∧
      ((vl53l7cx_clear_interrupt bus w (some d)).ret = VL53L7CX_STATUS_OK ↔
        (bus.write w.bus d.i2c d.address [0x00, 0x86, 0x01] 3 false).1 = 3) ∧
      (vl53l7cx_get_data_ready (some d) (some ready) last now).ret = VL53L7CX_STATUS_OK) ∧
    ((vl53l7cx_stop_ranging bus w (some { d with initialized := false })).ret =
        VL53L7CX_STATUS_ERROR ∧
      (vl53l7cx_stop_ranging bus w (some { d with initialized := false })).world = w ∧
      (vl53l7cx_clear_interrupt bus w (some { d with initialized := false })).ret =
        VL53L7CX_STATUS_ERROR ∧
      (vl53l7cx_clear_interrupt bus w (some { d with initialized := false })).world = w ∧
      (vl53l7cx_get_data_ready (some { d with initialized := false }) (some ready) last
        now).ret = VL53L7CX_STATUS_ERROR) := by
  have hrej := uninitialized_rejected bus w { d with initialized := false } rfl
  refine ⟨⟨?_, ?_, ?_, ?_, ?_⟩, ?_⟩
  · rw [stop_ranging_initialized bus w d hinit]
  · rw [stop_ranging_initialized bus w d hinit]
    by_cases h : (bus.write w.bus d.i2c d.address [0x00, 0x87, 0x00] 3 false).1 = 3
    · simp [h]
    · simp [h, VL53L7CX_STATUS_OK, VL53L7CX_STATUS_ERROR]
  · rw [clear_interrupt_initialized bus w d hinit]
  · rw [clear_interrupt_initialized bus w d hinit]
    by_cases h : (bus.write w.bus d.i2c d.address [0x00, 0x86, 0x01] 3 false).1 = 3
    · simp [h]
    · simp [h, VL53L7CX_STATUS_OK, VL53L7CX_STATUS_ERROR]
  · rw [get_data_ready_initialized d ready last now hinit]
    split_ifs <;> rfl
  · rw [hrej.2.1, hrej.2.2.1, hrej.2.2.2.1 (some ready) last now]
    exact ⟨rfl, rfl, rfl, rfl, rfl⟩

/-- Witness for C12 (amended): an initialized handle that was never started, on a dead bus:
the stop command is written and its failure is what is returned. -/
theorem C12_only_initialized_flag_is_tested_witness :
    (vl53l7cx_stop_ranging deadBus unitWorld (some demoDev)).world.log =
      [Txn.write 0 0x29 [0x00, 0x87, 0x00] 3 false] ∧
    (vl53l7cx_get_data_ready (some demoDev) (some false) 0 1000).ret = VL53L7CX_STATUS_OK ∧
    (vl53l7cx_stop_ranging deadBus unitWorld
      (some { demoDev with initialized := false })).world = unitWorld := by
  obtain ⟨⟨h1, -, -, -, h5⟩, -, h7, -⟩ := C12_only_initialized_flag_is_tested deadBus
    unitWorld demoDev false 0 1000 rfl
  exact ⟨h1, h5, h7⟩

/-- Claim C13 fails as stated: `vl53l7cx_start_ranging` on an uninitialized handle and on an
initialized handle whose bus write fails return the same value, `-1`. -/
theorem C13_invalid_state_same_code_as_bus_failure :
    (vl53l7cx_start_ranging deadBus unitWorld (some freshDev)).ret =
      (vl53l7cx_start_ranging deadBus unitWorld (some demoDev)).ret ∧
    (vl53l7cx_start_ranging deadBus unitWorld (some demoDev)).ret = -1 ∧
    (vl53l7cx_start_ranging deadBus unitWorld (some demoDev)).world.log =
      [Txn.write 0 0x29 [0x00, 0x87, 0x40] 3 false] := by
  decide

/-- Claim C13, amended: `vl53l7cx_start_ranging` returns `VL53L7CX_STATUS_ERROR` both on an
uninitialized handle and on an initialized handle whose bus write fails; the two outcomes
differ only in bus traffic: the first issues no transaction, the second has issued the
write of the start command. -/
theorem C13_start_failures_share_error_code {σ : Type} (bus : I2CBus σ) (w : World σ)
    (d : vl53l7cx_device_t) (hinit : d.initialized = true)
    (hfail : (bus.write w.bus d.i2c d.address [0x00, 0x87, 0x40] 3 false).1 ≠ 3) :
    (vl53l7cx_start_ranging bus w (some { d with initialized := false })).ret =
      VL53L7CX_STATUS_ERROR ∧
    (vl53l7cx_start_ranging bus w (some d)).ret = VL53L7CX_STATUS_ERROR ∧
    (vl53l7cx_start_ranging bus w (some { d with initialized := false })).world = w ∧
    (vl53l7cx_start_ranging bus w (some d)).world.log =
      w.log ++ [Txn.write d.i2c d.address [0x00, 0x87, 0x40] 3 false] := by
  have hrej := uninitialized_rejected bus w { d with initialized := false } rfl
  rw [hrej.1, start_ranging_initialized bus w d hinit]
  exact ⟨rfl, if_neg hfail, rfl, rfl⟩

/-- Witness for C13 (amended): the dead bus. -/
theorem C13_start_failures_share_error_code_witness :
    (vl53l7cx_start_ranging deadBus unitWorld
      (some { i2c := 0, address := 0x29, initialized := false })).ret =
        VL53L7CX_STATUS_ERROR ∧
    (vl53l7cx_start_ranging deadBus unitWorld (some demoDev)).ret = VL53L7CX_STATUS_ERROR ∧
    (vl53l7cx_start_ranging deadBus unitWorld
      (some { i2c := 0, address := 0x29, initialized := false })).world = unitWorld ∧
    (vl53l7cx_start_ranging deadBus unitWorld (some demoDev)).world.log =
      [Txn.write 0 0x29 [0x00, 0x87, 0x40] 3 false] :=
  C13_start_failures_share_error_code deadBus unitWorld demoDev rfl (by decide)

/-- Claim C14: for every handle object, bus reference and address, `vl53l7cx_init` stores
the reference and the address, and its only bus transaction is one 1-byte read at the device
address (no register-address write).  It returns OK with `initialized = true` exactly when
that read reports 1 byte; otherwise it returns ERROR with `initialized = false`, and then
`start_ranging`, `stop_ranging`, `clear_interrupt`, `get_data_ready` and `get_zone_data` on
that handle all return ERROR and leave the world as it was. -/
theorem C14_init_liveness_probe {σ : Type} (bus : I2CBus σ) (w : World σ)
    (dev0 : vl53l7cx_device_t) (i2c address : Nat) :
    let q := bus.read w.bus i2c address 1 false
    let c := vl53l7cx_init bus w (some dev0) (some i2c) address
    c.world.log = w.log ++ [Txn.read i2c address 1 false] ∧ c.world.bus = q.2.2 ∧
    (c.ret = VL53L7CX_STATUS_OK ↔ q.1 = 1) ∧
    (q.1 = 1 → c.ret = VL53L7CX_STATUS_OK ∧
      c.dev = some { i2c := i2c, address := address, initialized := true }) ∧
    (q.1 ≠ 1 → c.ret = VL53L7CX_STATUS_ERROR ∧
      c.dev = some { i2c := i2c, address := address, initialized := false } ∧
      ∀ (w0 : World σ) (ready : Option Bool) (last now : Nat)
        (data : Option vl53l7cx_zone_data_t) (raw : List Nat),
        vl53l7cx_start_ranging bus w0 c.dev =
          { ret := VL53L7CX_STATUS_ERROR, dev := c.dev, world := w0 } ∧
        vl53l7cx_stop_ranging bus w0 c.dev =
          { ret := VL53L7CX_STATUS_ERROR, dev := c.dev, world := w0 } ∧
        vl53l7cx_clear_interrupt bus w0 c.dev =
          { ret := VL53L7CX_STATUS_ERROR, dev := c.dev, world := w0 } ∧
        vl53l7cx_get_data_ready c.dev ready last now =
          { ret := VL53L7CX_STATUS_ERROR, dev := c.dev, ready := ready, last_check := last } ∧
        vl53l7cx_get_zone_data bus w0 c.dev data raw =
          { ret := VL53L7CX_STATUS_ERROR, dev := c.dev, data := data, world := w0 }) := by
  intro q c
  have hc : c = _ := init_outcome bus w dev0 i2c address
  rw [hc]
  refine ⟨rfl, rfl, ?_, ?_, ?_⟩
  · by_cases h : q.1 = 1
    · have h2 : (bus.read w.bus i2c address 1 false).1 = 1 := h
      simp [q, h2]
    · have h2 : ¬ (bus.read w.bus i2c address 1 false).1 = 1 := h
      simp [q, h2, VL53L7CX_STATUS_OK, VL53L7CX_STATUS_ERROR]
  · intro h
    have h2 : (bus.read w.bus i2c address 1 false).1 = 1 := h
    simp [h2]
  · intro h
    have h2 : ¬ (bus.read w.bus i2c address 1 false).1 = 1 := h
    have hdec : decide ((bus.read w.bus i2c address 1 false).1 = 1) = false :=
      decide_eq_false h2
    rw [if_neg h2, hdec]
    refine ⟨rfl, rfl, ?_⟩
    intro w0 ready last now data raw
    have hrej := uninitialized_rejected bus w0
      { i2c := i2c, address := address, initialized := false } rfl
    exact ⟨hrej.1, hrej.2.1, hrej.2.2.1, hrej.2.2.2.1 ready last now,
      hrej.2.2.2.2 data raw⟩

/-- Witness for C14: no device answers; `init` fails after its single read and a following
`start_ranging` is rejected without bus traffic. -/
theorem C14_init_liveness_probe_witness :
    (vl53l7cx_init deadBus unitWorld (some demoDev) (some 1) 0x29).ret =
      VL53L7CX_STATUS_ERROR ∧
    (vl53l7cx_init deadBus unitWorld (some demoDev) (some 1) 0x29).dev =
      some { i2c := 1, address := 0x29, initialized := false } ∧
    (vl53l7cx_init deadBus unitWorld (some demoDev) (some 1) 0x29).world.log =
      [Txn.read 1 0x29 1 false] ∧
    vl53l7cx_start_ranging deadBus
        (vl53l7cx_init deadBus unitWorld (some demoDev) (some 1) 0x29).world
        (vl53l7cx_init deadBus unitWorld (some demoDev) (some 1) 0x29).dev =
      { ret := VL53L7CX_STATUS_ERROR,
        dev := (vl53l7cx_init deadBus unitWorld (some demoDev) (some 1) 0x29).dev,
        world := (vl53l7cx_init deadBus unitWorld (some demoDev) (some 1) 0x29).world } := by
  obtain ⟨hlog, -, -, -, hfail⟩ := C14_init_liveness_probe deadBus unitWorld demoDev 1 0x29
  obtain ⟨hret, hdev, hafter⟩ := hfail (by decide)
  exact ⟨hret, hdev, hlog, (hafter _ none 0 0 none []).1⟩

/-- Claim C15: on an initialized handle, `vl53l7cx_start_ranging`, `vl53l7cx_stop_ranging`
and `vl53l7cx_clear_interrupt` each issue exactly one bus transaction, a write with stop of
the three bytes `[0x00, 0x87, 0x40]`, `[0x00, 0x87, 0x00]` and `[0x00, 0x86, 0x01]`
respectively, and each returns OK exactly when the bus reports 3 bytes written (ERROR
otherwise). -/
theorem C15_command_writes {σ : Type} (bus : I2CBus σ) (w : World σ)
    (d : vl53l7cx_device_t) (hinit : d.initialized = true) :
    ((vl53l7cx_start_ranging bus w (some d)).world.log =
        w.log ++ [Txn.write d.i2c d.address [0x00, 0x87, 0x40] 3 false] ∧
      ((vl53l7cx_start_ranging bus w (some d)).ret = VL53L7CX_STATUS_OK ↔
        (bus.write w.bus d.i2c d.address [0x00, 0x87, 0x40] 3 false).1 = 3) ∧
      ((vl53l7cx_start_ranging bus w (some d)).ret ≠ VL53L7CX_STATUS_OK →
        (vl53l7cx_start_ranging bus w (some d)).ret = VL53L7CX_STATUS_ERROR)) ∧
    ((vl53l7cx_stop_ranging bus w (some d)).world.log =
        w.log ++ [Txn.write d.i2c d.address [0x00, 0x87, 0x00] 3 false] ∧
      ((vl53l7cx_stop_ranging bus w (some d)).ret = VL53L7CX_STATUS_OK ↔
        (bus.write w.bus d.i2c d.address [0x00, 0x87, 0x00] 3 false).1 = 3) ∧
      ((vl53l7cx_stop_ranging bus w (some d)).ret ≠ VL53L7CX_STATUS_OK →
        (vl53l7cx_stop_ranging bus w (some d)).ret = VL53L7CX_STATUS_ERROR)) ∧
    ((vl53l7cx_clear_interrupt bus w (some d)).world.log =
        w.log ++ [Txn.write d.i2c d.address [0x00, 0x86, 0x01] 3 false] ∧
      ((vl53l7cx_clear_interrupt bus w (some d)).ret = VL53L7CX_STATUS_OK ↔
        (bus.write w.bus d.i2c d.address [0x00, 0x86, 0x01] 3 false).1 = 3) ∧
      ((vl53l7cx_clear_interrupt bus w (some d)).ret ≠ VL53L7CX_STATUS_OK →
        (vl53l7cx_clear_interrupt bus w (some d)).ret = VL53L7CX_STATUS_ERROR)) := by
  have key : ∀ (p : Prop) [Decidable p],
      ((if p then VL53L7CX_STATUS_OK else VL53L7CX_STATUS_ERROR) = VL53L7CX_STATUS_OK ↔ p) ∧
      ((if p then VL53L7CX_STATUS_OK else VL53L7CX_STATUS_ERROR) ≠ VL53L7CX_STATUS_OK →
        (if p then VL53L7CX_STATUS_OK else VL53L7CX_STATUS_ERROR) = VL53L7CX_STATUS_ERROR) := by
    intro p _
    by_cases h : p
    · simp [h]
    · simp [h, VL53L7CX_STATUS_OK, VL53L7CX_STATUS_ERROR]
  rw [start_ranging_initialized bus w d hinit, stop_ranging_initialized bus w d hinit,
    clear_interrupt_initialized bus w d hinit]
  exact ⟨⟨rfl, key _⟩, ⟨rfl, key _⟩, ⟨rfl, key _⟩⟩

/-- Witness for C15: the three commands on the bus that accepts everything. -/
theorem C15_command_writes_witness :
    (vl53l7cx_start_ranging acceptAllBus unitWorld (some demoDev)).world.log =
      [Txn.write 0 0x29 [0x00, 0x87, 0x40] 3 false] ∧
    (vl53l7cx_stop_ranging acceptAllBus unitWorld (some demoDev)).world.log =
      [Txn.write 0 0x29 [0x00, 0x87, 0x00] 3 false] ∧
    (vl53l7cx_clear_interrupt acceptAllBus unitWorld (some demoDev)).world.log =
      [Txn.write 0 0x29 [0x00, 0x86, 0x01] 3 false] ∧
    (vl53l7cx_start_ranging acceptAllBus unitWorld (some demoDev)).ret =
      VL53L7CX_STATUS_OK := by
  obtain ⟨⟨h1, h2, -⟩, ⟨h3, -, -⟩, ⟨h4, -, -⟩⟩ :=
    C15_command_writes acceptAllBus unitWorld demoDev rfl
  exact ⟨h1, h3, h4, h2.mpr rfl⟩

/-- Claim C16: `vl53l7cx_start_ranging`, `vl53l7cx_stop_ranging`,
`vl53l7cx_clear_interrupt`, `vl53l7cx_get_data_ready` and `vl53l7cx_get_zone_data` leave the
handle object (bus reference, address, `initialized` flag) exactly as it was, whether they
succeed or fail.  Hence a failed start leaves the handle marked initialized, and a
`vl53l7cx_clear_interrupt`, failed or not, does not change the outcome of a later poll. -/
theorem C16_handle_is_never_modified {σ : Type} (bus : I2CBus σ) (w : World σ)
    (dev : Option vl53l7cx_device_t) (data : Option vl53l7cx_zone_data_t) (raw : List Nat)
    (ready : Option Bool) (last now : Nat) :
    ((vl53l7cx_start_ranging bus w dev).dev = dev ∧
      (vl53l7cx_stop_ranging bus w dev).dev = dev ∧
      (vl53l7cx_clear_interrupt bus w dev).dev = dev ∧
      (vl53l7cx_get_data_ready dev ready last now).dev = dev ∧
      (vl53l7cx_get_zone_data bus w dev data raw).dev = dev) ∧
    (∀ d, dev = some d → d.initialized = true →
      (vl53l7cx_start_ranging bus w dev).ret ≠ VL53L7CX_STATUS_OK →
      ∃ d1, (vl53l7cx_start_ranging bus w dev).dev = some d1 ∧ d1.initialized = true) ∧
    vl53l7cx_get_data_ready (vl53l7cx_clear_interrupt bus w dev).dev ready last now =
      vl53l7cx_get_data_ready dev ready last now := by
  have h1 : (vl53l7cx_start_ranging bus w dev).dev = dev := by
    unfold vl53l7cx_start_ranging
    cases dev with
    | none => rfl
    | some d => simp only; split_ifs <;> rfl
  have h2 : (vl53l7cx_stop_ranging bus w dev).dev = dev := by
    unfold vl53l7cx_stop_ranging
    cases dev with
    | none => rfl
    | some d => simp only; split_ifs <;> rfl
  have h3 : (vl53l7cx_clear_interrupt bus w dev).dev = dev := by
    unfold vl53l7cx_clear_interrupt
    cases dev with
    | none => rfl
    | some d => simp only; split_ifs <;> rfl
  have h4 : (vl53l7cx_get_data_ready dev ready last now).dev = dev := by
    unfold vl53l7cx_get_data_ready
    cases dev with
    | none => rfl
    | some d =>
      cases ready with
      | none => rfl
      | some b => simp only; split_ifs <;> rfl
  have h5 : (vl53l7cx_get_zone_data bus w dev data raw).dev = dev := by
    unfold vl53l7cx_get_zone_data
    cases dev with
    | none => rfl
    | some d =>
      cases data with
      | none => rfl
      | some s => simp only; split_ifs <;> rfl
  refine ⟨⟨h1, h2, h3, h4, h5⟩, ?_, ?_⟩
  · intro d hd hinit _
    exact ⟨d, h1.trans hd, hinit⟩
  · rw [h3]

/-- Witness for C16: on the dead bus the start command fails and the handle still reads
initialized. -/
theorem C16_handle_is_never_modified_witness :
    (vl53l7cx_start_ranging deadBus unitWorld (some demoDev)).ret = VL53L7CX_STATUS_ERROR ∧
    (vl53l7cx_start_ranging deadBus unitWorld (some demoDev)).dev = some demoDev ∧
    (vl53l7cx_get_zone_data deadBus unitWorld (some demoDev) (some zeroed) []).dev =
      some demoDev :=
  ⟨by decide,
   (C16_handle_is_never_modified deadBus unitWorld (some demoDev) (some zeroed) []
      (some false) 0 0).1.1,
   (C16_handle_is_never_modified deadBus unitWorld (some demoDev) (some zeroed) []
      (some false) 0 0).1.2.2.2.2⟩

/-! ## Data-ready detector -/

theorem sub32_of_le (now last : Nat) (hle : last ≤ now) (hnow : now < UINT32_SIZE) :
    sub32 now last = now - last := by
  unfold sub32 UINT32_SIZE at *
  omega

theorem sub32_mod_left (now last : Nat) : sub32 (now % UINT32_SIZE) last = sub32 now last := by
  unfold sub32
  rw [Nat.mod_mod]

theorem sub32_mod_right (now last : Nat) :
    sub32 now (last % UINT32_SIZE) = sub32 now last := by
  unfold sub32
  rw [Nat.mod_mod]

/-- What a poll on an initialized handle answers and stores. -/
theorem get_data_ready_cases (d : vl53l7cx_device_t) (b : Bool) (last now : Nat)
    (hinit : d.initialized = true) :
    (sub32 now last > 100 →
      vl53l7cx_get_data_ready (some d) (some b) last now =
        { ret := VL53L7CX_STATUS_OK, dev := some d, ready := some true,
          last_check := now % UINT32_SIZE }) ∧
    (¬ sub32 now last > 100 →
      vl53l7cx_get_data_ready (some d) (some b) last now =
        { ret := VL53L7CX_STATUS_OK, dev := some d, ready := some false,
          last_check := last }) := by
  rw [get_data_ready_initialized d b last now hinit, sub32_mod_left]
  exact ⟨fun h => if_pos h, fun h => if_neg h⟩

/-- Polls that all fall within 100 ms of the stored timestamp `t` answer false and keep it. -/
theorem pollAll_quiet (d : vl53l7cx_device_t) (hinit : d.initialized = true) (t : Nat)
    (times : List Nat) (hclose : ∀ u ∈ times, sub32 u t ≤ 100) :
    pollAll (some d) (t % UINT32_SIZE) times =
      (times.map (fun _ => { ret := VL53L7CX_STATUS_OK, dev := some d, ready := some false,
                             last_check := t % UINT32_SIZE }), t % UINT32_SIZE) := by
  induction times with
  | nil => rfl
  | cons u rest ih =>
    have hu : ¬ sub32 u (t % UINT32_SIZE) > 100 := by
      rw [sub32_mod_right]
      exact Nat.not_lt.mpr (hclose u (List.mem_cons_self u rest))
    have hstep := (get_data_ready_cases d false (t % UINT32_SIZE) u hinit).2 hu
    have hrest := ih (fun v hv => hclose v (List.mem_cons_of_mem u hv))
    simp only [pollAll, hstep, hrest, List.map_cons]

/-- Claim C17 fails as stated: a poll made exactly 100 ms after the last positive answer
(stored timestamp 1000, clock 1100) reports `ready = false`. -/
theorem C17_exactly_100ms_is_not_ready :
    (1100 : Nat) - 1000 ≥ 100 ∧
    (vl53l7cx_get_data_ready (some demoDev) (some true) 1000 1100).ready = some false ∧
    (vl53l7cx_get_data_ready (some demoDev) (some true) 1000 1100).ret =
      VL53L7CX_STATUS_OK := by
  decide

/-- Claim C17, amended: on an initialized handle a poll returns OK and reports
`ready = true` exactly when more than 100 ms have elapsed since the stored timestamp, that
is when the unsigned 32-bit difference `now - last` exceeds 100 (`now - last > 100` when
the counter has not wrapped); a poll made exactly 100 ms after it reports false. -/
theorem C17_ready_iff_more_than_100ms (d : vl53l7cx_device_t) (b : Bool) (last now : Nat)
    (hinit : d.initialized = true) :
    (vl53l7cx_get_data_ready (some d) (some b) last now).ret = VL53L7CX_STATUS_OK ∧
    ((vl53l7cx_get_data_ready (some d) (some b) last now).ready = some true ↔
      sub32 now last > 100) ∧
    ((vl53l7cx_get_data_ready (some d) (some b) last now).ready = some false ↔
      sub32 now last ≤ 100) ∧
    (last ≤ now → now < UINT32_SIZE →
      ((vl53l7cx_get_data_ready (some d) (some b) last now).ready = some true ↔
        now - last > 100)) ∧
    (now = last + 100 → now < UINT32_SIZE →
      (vl53l7cx_get_data_ready (some d) (some b) last now).ready = some false) := by
  have hc := get_data_ready_cases d b last now hinit
  have main : (vl53l7cx_get_data_ready (some d) (some b) last now).ret = VL53L7CX_STATUS_OK ∧
      ((vl53l7cx_get_data_ready (some d) (some b) last now).ready = some true ↔
        sub32 now last > 100) ∧
      ((vl53l7cx_get_data_ready (some d) (some b) last now).ready = some false ↔
        sub32 now last ≤ 100) := by
    by_cases h : sub32 now last > 100
    · rw [hc.1 h]
      have h2 : ¬ sub32 now last ≤ 100 := Nat.not_le.mpr h
      simp [h, h2]
    · rw [hc.2 h]
      have h2 : sub32 now last ≤ 100 := Nat.not_lt.mp h
      simp [h, h2]
  refine ⟨main.1, main.2.1, main.2.2, ?_, ?_⟩
  · intro hle hnow
    rw [main.2.1, sub32_of_le now last hle hnow]
  · intro heq hnow
    rw [main.2.2, sub32_of_le now last (by omega) hnow]
    omega

/-- Witness for C17 (amended): 101 ms after the stored timestamp the poll is positive,
100 ms after it is not. -/
theorem C17_ready_iff_more_than_100ms_witness :
    (vl53l7cx_get_data_ready (some demoDev) (some false) 1000 1101).ready = some true ∧
    (vl53l7cx_get_data_ready (some demoDev) (some false) 1000 1100).ready = some false :=
  ⟨(C17_ready_iff_more_than_100ms demoDev false 1000 1101 rfl).2.1.mpr (by decide),
   (C17_ready_iff_more_than_100ms demoDev false 1000 1100 rfl).2.2.2.2 rfl (by decide)⟩

/-- Claim C18: on an initialized handle a poll that reports `ready = false` leaves the stored
timestamp unchanged and a poll that reports `ready = true` sets it to the clock reading of
that poll; so after a positive answer at time `t`, any number of polls at times `u` with
`u - t < 100` (unsigned 32-bit difference) all report false and leave the timestamp at
`t`. -/
theorem C18_timestamp_update (d : vl53l7cx_device_t) (b : Bool) (last t : Nat)
    (times : List Nat) (hinit : d.initialized = true)
    (hclose : ∀ u ∈ times, sub32 u t < 100) :
    ((vl53l7cx_get_data_ready (some d) (some b) last t).ready = some false →
      (vl53l7cx_get_data_ready (some d) (some b) last t).last_check = last) ∧
    ((vl53l7cx_get_data_ready (some d) (some b) last t).ready = some true →
      (vl53l7cx_get_data_ready (some d) (some b) last t).last_check = t % UINT32_SIZE ∧
      (pollAll (some d) (vl53l7cx_get_data_ready (some d) (some b) last t).last_check
        times).1.length = times.length ∧
      (∀ a ∈ (pollAll (some d) (vl53l7cx_get_data_ready (some d) (some b) last t).last_check
        times).1, a.ret = VL53L7CX_STATUS_OK ∧ a.ready = some false) ∧
      (pollAll (some d) (vl53l7cx_get_data_ready (some d) (some b) last t).last_check
        times).2 = t % UINT32_SIZE) := by
  have hc := get_data_ready_cases d b last t hinit
  have hq := pollAll_quiet d hinit t times (fun u hu => Nat.le_of_lt (hclose u hu))
  by_cases h : sub32 t last > 100
  · rw [hc.1 h]
    refine ⟨fun hf => by simp at hf, fun _ => ?_⟩
    dsimp only
    rw [hq]
    refine ⟨rfl, by simp, ?_, rfl⟩
    intro a ha
    rw [List.mem_map] at ha
    obtain ⟨_, -, rfl⟩ := ha
    exact ⟨rfl, rfl⟩
  · rw [hc.2 h]
    exact ⟨fun _ => rfl, fun ht => by simp at ht⟩

/-- Witness for C18: a positive answer at 5000, then polls at 5010, 5050 and 5099. -/
theorem C18_timestamp_update_witness :
    (vl53l7cx_get_data_ready (some demoDev) (some false) 0 5000).ready = some true ∧
    (vl53l7cx_get_data_ready (some demoDev) (some false) 0 5000).last_check = 5000 ∧
    (pollAll (some demoDev) 5000 [5010, 5050, 5099]).1.map (fun a => a.ready) =
      [some false, some false, some false] ∧
    (pollAll (some demoDev) 5000 [5010, 5050, 5099]).2 = 5000 := by
  have h := (C18_timestamp_update demoDev false 0 5000 [5010, 5050, 5099] rfl
    (by decide)).2 (by decide)
  exact ⟨by decide, h.1, by decide, h.2.2.2⟩

/-- Claim C20: the data-ready timestamp is one static variable shared by all handles.  After
a positive answer for handle `h1` at time `t`, every poll for another initialized handle
`h2` at a time `u` with `u - t ≤ 100` (unsigned 32-bit difference) reports false, whatever
the timestamp `last` was that earlier polls had left behind. -/
theorem C20_timestamp_shared_between_handles (h1 h2 : vl53l7cx_device_t) (b : Bool)
    (last t : Nat) (times : List Nat)
    (hinit1 : h1.initialized = true) (hinit2 : h2.initialized = true)
    (hpos : (vl53l7cx_get_data_ready (some h1) (some b) last t).ready = some true)
    (hclose : ∀ u ∈ times, sub32 u t ≤ 100) :
    (pollAll (some h2) (vl53l7cx_get_data_ready (some h1) (some b) last t).last_check
      times).1.length = times.length ∧
    ∀ a ∈ (pollAll (some h2) (vl53l7cx_get_data_ready (some h1) (some b) last t).last_check
      times).1, a.ret = VL53L7CX_STATUS_OK ∧ a.dev = some h2 ∧ a.ready = some false := by
  have hc := get_data_ready_cases h1 b last t hinit1
  have hq := pollAll_quiet h2 hinit2 t times hclose
  by_cases h : sub32 t last > 100
  · rw [hc.1 h]
    simp only [hq]
    refine ⟨by simp, ?_⟩
    intro a ha
    rw [List.mem_map] at ha
    obtain ⟨_, -, rfl⟩ := ha
    exact ⟨rfl, rfl, rfl⟩
  · rw [hc.2 h] at hpos
    simp at hpos

/-- Witness for C20: handle `0x29` is answered positively at 5000; handle `0x30`, never
polled before, is then refused at 5001 and at 5100. -/
theorem C20_timestamp_shared_between_handles_witness :
    (pollAll (some { i2c := 0, address := 0x30, initialized := true })
      (vl53l7cx_get_data_ready (some demoDev) (some false) 0 5000).last_check
      [5001, 5100]).1.length = 2 ∧
    ∀ a ∈ (pollAll (some { i2c := 0, address := 0x30, initialized := true })
      (vl53l7cx_get_data_ready (some demoDev) (some false) 0 5000).last_check
      [5001, 5100]).1,
      a.ret = VL53L7CX_STATUS_OK ∧
      a.dev = some { i2c := 0, address := 0x30, initialized := true } ∧
      a.ready = some false :=
  C20_timestamp_shared_between_handles demoDev
    { i2c := 0, address := 0x30, initialized := true } false 0 5000 [5001, 5100] rfl rfl
    (by decide) (by decide)

/-! ## Presentation -/

theorem gridIndices_eq : gridIndices = [0, 1, 2, 3, 4, 5, 6, 7] := by decide

theorem range_eight : List.range 8 = [0, 1, 2, 3, 4, 5, 6, 7] := by decide

theorem printBlock_eq (values : List Nat) :
    printBlock values =
      (List.range 8).flatMap (fun row => [Printed.rowLabel row] ++
        (List.range 8).map (fun col => Printed.cell (values.getD (row * 8 + col) 0)) ++
        [Printed.newline]) := by
  unfold printBlock
  rw [gridIndices_eq, range_eight]
  simp only [List.foldl_cons, List.foldl_nil, List.flatMap_cons, List.flatMap_nil,
    List.map_cons, List.map_nil, List.nil_append, List.append_assoc, List.cons_append,
    List.append_nil]

theorem gridRows_block (values : List Nat) (rest : List Printed) :
    gridRows (printBlock values ++ rest) [] =
      (List.range 8).map (fun row =>
        (List.range 8).map (fun col => values.getD (row * 8 + col) 0)) ++
      gridRows rest [] := by
  rw [printBlock_eq, range_eight]
  simp only [List.flatMap_cons, List.flatMap_nil,
    List.map_cons, List.map_nil, List.nil_append, List.append_assoc, List.cons_append,
    List.append_nil, gridRows]
  rfl

theorem print_zone_data_shape (s : vl53l7cx_zone_data_t) :
    vl53l7cx_print_zone_data (some s) =
      Printed.header :: Printed.distancesTitle :: (printBlock s.distance_mm ++
        (Printed.statusTitle :: (printBlock s.range_status ++ [Printed.footer]))) := by
  unfold vl53l7cx_print_zone_data
  simp only [List.append_assoc, List.cons_append, List.nil_append]

theorem gridRows_print (s : vl53l7cx_zone_data_t) :
    gridRows (vl53l7cx_print_zone_data (some s)) [] =
      (List.range 8).map (fun row =>
        (List.range 8).map (fun col => s.distance_mm.getD (row * 8 + col) 0)) ++
      (List.range 8).map (fun row =>
        (List.range 8).map (fun col => s.range_status.getD (row * 8 + col) 0)) := by
  rw [print_zone_data_shape]
  have h1 : ∀ rest, gridRows (Printed.header :: Printed.distancesTitle :: rest) [] =
      gridRows rest [] := fun _ => rfl
  have h2 : ∀ rest, gridRows (Printed.statusTitle :: rest) [] = gridRows rest [] :=
    fun _ => rfl
  have h3 : gridRows [Printed.footer] [] = [] := rfl
  rw [h1, gridRows_block, h2, gridRows_block, h3, List.append_nil]

/-- Claim C19: for every snapshot `vl53l7cx_print_zone_data` prints the two banners, 8 rows
of 8 distance cells, the status title, 8 rows of 8 status cells and the footer; the cell at
row `r`, column `c` of each block is zone `r * 8 + c`, so zone `z < 64` appears once per
block, at row `z / 8`, column `z % 8`.  The snapshot is an input only (pointer to `const`). -/
theorem C19_print_grid_layout (s : vl53l7cx_zone_data_t) :
    vl53l7cx_print_zone_data (some s) =
      [Printed.header, Printed.distancesTitle] ++
      (List.range 8).flatMap (fun row => [Printed.rowLabel row] ++
        (List.range 8).map (fun col => Printed.cell (s.distance_mm.getD (row * 8 + col) 0)) ++
        [Printed.newline]) ++
      [Printed.statusTitle] ++
      (List.range 8).flatMap (fun row => [Printed.rowLabel row] ++
        (List.range 8).map (fun col => Printed.cell (s.range_status.getD (row * 8 + col) 0)) ++
        [Printed.newline]) ++
      [Printed.footer] ∧
    (gridRows (vl53l7cx_print_zone_data (some s)) []).length = 16 ∧
    (∀ row ∈ gridRows (vl53l7cx_print_zone_data (some s)) [], row.length = 8) ∧
    ∀ z, z < 64 →
      ((gridRows (vl53l7cx_print_zone_data (some s)) []).getD (z / 8) []).getD (z % 8) 0 =
        s.distance_mm.getD z 0 ∧
      ((gridRows (vl53l7cx_print_zone_data (some s)) []).getD (8 + z / 8) []).getD (z % 8) 0 =
        s.range_status.getD z 0 := by
  refine ⟨?_, ?_, ?_, ?_⟩
  · unfold vl53l7cx_print_zone_data
    simp only [printBlock_eq]
  · rw [gridRows_print]
    simp
  · rw [gridRows_print]
    intro row hrow
    simp only [List.mem_append, List.mem_map] at hrow
    rcases hrow with ⟨_, -, rfl⟩ | ⟨_, -, rfl⟩ <;> simp
  · intro z hz
    rw [gridRows_print, range_eight]
    interval_cases z <;> exact ⟨rfl, rfl⟩

/-! ## Range of the decoded values -/

theorem interpretation_range (word : Nat) :
    zoneDistance word ≤ 8000 ∧ (zoneStatus word = 0 ∨ zoneStatus word = 1) ∧
      (zoneStatus word = 1 → zoneDistance word = 0) := by
  unfold zoneDistance zoneStatus
  by_cases h0 : word = 0
  · simp [h0]
  · by_cases h1 : word > 8000
    · simp [h0, h1]
    · rw [if_neg h0, if_neg h1, if_neg h0, if_neg h1]
      exact ⟨by omega, Or.inl rfl, fun h => absurd h (by decide)⟩

/-- Claim C21: on an initialized handle, when the call succeeds because candidate A (0x0006)
answered, every one of the 64 zones of the snapshot has `distance_mm ≤ 8000`, a
`range_status` of 0 or 1, and `distance_mm = 0` whenever `range_status = 1`. -/
theorem C21_candidate_A_value_range {σ : Type} (bus : I2CBus σ) (w : World σ)
    (d : vl53l7cx_device_t) (d0 : vl53l7cx_zone_data_t) (raw0 : List Nat)
    (hinit : d.initialized = true)
    (hA : (readA bus w d raw0).ret = VL53L7CX_STATUS_OK) :
    (vl53l7cx_get_zone_data bus w (some d) (some d0) raw0).ret = VL53L7CX_STATUS_OK ∧
    ∃ s, (vl53l7cx_get_zone_data bus w (some d) (some d0) raw0).data = some s ∧
      ∀ i, i < 64 → ∃ dist st, zoneEntry s i = some (dist, st) ∧
        dist ≤ 8000 ∧ (st = 0 ∨ st = 1) ∧ (st = 1 → dist = 0) := by
  rw [get_zone_data_chain bus w d d0 raw0 hinit, if_pos hA]
  refine ⟨rfl, _, rfl, ?_⟩
  intro i hi
  rw [zoneEntry_ready]
  by_cases hlow : i < 32
  · rw [zoneEntry_methodA_low _ _ _ i hlow]
    exact ⟨_, _, rfl, interpretation_range _⟩
  · rw [zoneEntry_methodA_high _ _ _ i (by omega) hi]
    by_cases hB : (readB bus w d raw0).ret = VL53L7CX_STATUS_OK
    · rw [if_pos hB]
      exact ⟨_, _, rfl, interpretation_range _⟩
    · rw [if_neg hB]
      exact ⟨0, 0, rfl, by omega, Or.inl rfl, fun _ => rfl⟩

/-- Witness for C21: the device answering at 0x0006 and 0x0007; zone 1 (word `0x2710`) is
`(0, 1)` and zone 3 (word 8000) is `(8000, 0)`. -/
theorem C21_candidate_A_value_range_witness :
    (vl53l7cx_get_zone_data (regFileBus [6, 7] demoContent) demoWorld (some demoDev)
        (some zeroed) []).ret = VL53L7CX_STATUS_OK ∧
    ∃ s, (vl53l7cx_get_zone_data (regFileBus [6, 7] demoContent) demoWorld (some demoDev)
        (some zeroed) []).data = some s ∧
      ∀ i, i < 64 → ∃ dist st, zoneEntry s i = some (dist, st) ∧
        dist ≤ 8000 ∧ (st = 0 ∨ st = 1) ∧ (st = 1 → dist = 0) :=
  C21_candidate_A_value_range (regFileBus [6, 7] demoContent) demoWorld demoDev zeroed []
    (by decide) (by decide)

/-! ## Wrap-around of the millisecond counter -/

theorem sub32_add_mod (last delta : Nat) (hdelta : delta < UINT32_SIZE) :
    sub32 ((last + delta) % UINT32_SIZE) last = delta := by
  unfold sub32 UINT32_SIZE at *
  omega

/-- Claim C22: on an initialized handle the poll reports ready exactly when the unsigned
32-bit difference `(now - last) mod 2^32` exceeds 100; hence for every `last` and every
`delta` with `100 < delta < 2^32` a poll at `now = (last + delta) mod 2^32` reports
`ready = true` and stores `now`, also when the counter has wrapped and `now < last`. -/
theorem C22_elapsed_time_wraps (d : vl53l7cx_device_t) (b : Bool) (last delta : Nat)
    (hinit : d.initialized = true) (hlo : 100 < delta) (hhi : delta < UINT32_SIZE) :
    (∀ now, ((sub32 now last : Nat) : Int) = ((now : Int) - (last : Int)) % 4294967296) ∧
    (∀ now, (vl53l7cx_get_data_ready (some d) (some b) last now).ready =
      some (decide (sub32 now last > 100))) ∧
    vl53l7cx_get_data_ready (some d) (some b) last ((last + delta) % UINT32_SIZE) =
      { ret := VL53L7CX_STATUS_OK, dev := some d, ready := some true,
        last_check := (last + delta) % UINT32_SIZE } := by
  refine ⟨?_, ?_, ?_⟩
  · intro now
    unfold sub32 UINT32_SIZE
    omega
  · intro now
    have hc := get_data_ready_cases d b last now hinit
    by_cases h : sub32 now last > 100
    · rw [hc.1 h, decide_eq_true h]
    · rw [hc.2 h, decide_eq_false h]
  · have h : sub32 ((last + delta) % UINT32_SIZE) last > 100 := by
      rw [sub32_add_mod last delta hhi]
      exact hlo
    rw [(get_data_ready_cases d b last _ hinit).1 h, Nat.mod_mod]

/-- Witness for C22: last positive answer at `2^32 - 6`, poll 200 ms later at counter
value 194, which is numerically below the stored timestamp. -/
theorem C22_elapsed_time_wraps_witness :
    (194 : Nat) < 4294967290 ∧
    vl53l7cx_get_data_ready (some demoDev) (some false) 4294967290 194 =
      { ret := VL53L7CX_STATUS_OK, dev := some demoDev, ready := some true,
        last_check := 194 } :=
  ⟨by decide,
   (C22_elapsed_time_wraps demoDev false 4294967290 200 rfl (by decide) (by decide)).2.2⟩

/-! ## Precondition failures -/

/-- Claim C23: when the handle pointer is `NULL`, or its `initialized` flag is false, or the
output pointer is `NULL`, `vl53l7cx_get_zone_data` returns ERROR and leaves the caller's
snapshot exactly as it was (not zeroed) and the world untouched (no bus transaction), and
`vl53l7cx_get_data_ready` returns ERROR and leaves the `ready` output and the stored
timestamp as they were. -/
theorem C23_precondition_failures_are_atomic {σ : Type} (bus : I2CBus σ) (w : World σ)
    (dev : Option vl53l7cx_device_t) (data : Option vl53l7cx_zone_data_t)
    (ready : Option Bool) (raw0 : List Nat) (last now : Nat)
    (hzone : dev = none ∨ (∃ d, dev = some d ∧ d.initialized = false) ∨ data = none)
    (hready : dev = none ∨ (∃ d, dev = some d ∧ d.initialized = false) ∨ ready = none) :
    vl53l7cx_get_zone_data bus w dev data raw0 =
      { ret := VL53L7CX_STATUS_ERROR, dev := dev, data := data, world := w } ∧
    vl53l7cx_get_data_ready dev ready last now =
      { ret := VL53L7CX_STATUS_ERROR, dev := dev, ready := ready, last_check := last } := by
  constructor
  · rcases hzone with h | ⟨d, h, hun⟩ | h
    · subst h
      rfl
    · subst h
      exact (uninitialized_rejected bus w d hun).2.2.2.2 data raw0
    · subst h
      cases dev <;> rfl
  · rcases hready with h | ⟨d, h, hun⟩ | h
    · subst h
      rfl
    · subst h
      exact (uninitialized_rejected bus w d hun).2.2.2.1 ready last now
    · subst h
      cases dev <;> rfl

/-- Witness for C23: an uninitialized handle, a snapshot full of stale values and a stored
timestamp of 1234. -/
theorem C23_precondition_failures_are_atomic_witness :
    vl53l7cx_get_zone_data acceptAllBus unitWorld (some freshDev)
        (some { zeroed with distance_mm := List.replicate 64 7, data_ready := true }) [] =
      { ret := VL53L7CX_STATUS_ERROR, dev := some freshDev,
        data := some { zeroed with distance_mm := List.replicate 64 7, data_ready := true },
        world := unitWorld } ∧
    vl53l7cx_get_data_ready (some freshDev) (some true) 1234 99999 =
      { ret := VL53L7CX_STATUS_ERROR, dev := some freshDev, ready := some true,
        last_check := 1234 } :=
  C23_precondition_failures_are_atomic acceptAllBus unitWorld (some freshDev)
    (some { zeroed with distance_mm := List.replicate 64 7, data_ready := true })
    (some true) [] 1234 99999
    (Or.inr (Or.inl ⟨freshDev, rfl, rfl⟩)) (Or.inr (Or.inl ⟨freshDev, rfl, rfl⟩))

/-! ## Success, `data_ready` and the candidate reads -/

theorem status_ok_ne_error : VL53L7CX_STATUS_ERROR ≠ VL53L7CX_STATUS_OK := by decide

/-- Claim C25: on an initialized handle, for every bus, `vl53l7cx_get_zone_data` returns OK
if and only if the resulting snapshot has `data_ready = true`, and if and only if at least
one of the candidate reads (0x0006, 0x0007, 0x0008, 0x0009, each issued after the failure of
the previous ones) succeeded; otherwise it returns ERROR. -/
theorem C25_success_iff_data_ready {σ : Type} (bus : I2CBus σ) (w : World σ)
    (d : vl53l7cx_device_t) (d0 : vl53l7cx_zone_data_t) (raw0 : List Nat)
    (hinit : d.initialized = true) :
    ∃ s, (vl53l7cx_get_zone_data bus w (some d) (some d0) raw0).data = some s ∧
      ((vl53l7cx_get_zone_data bus w (some d) (some d0) raw0).ret = VL53L7CX_STATUS_OK ↔
        s.data_ready = true) ∧
      ((vl53l7cx_get_zone_data bus w (some d) (some d0) raw0).ret = VL53L7CX_STATUS_OK ↔
        ((readA bus w d raw0).ret = VL53L7CX_STATUS_OK ∨
         (readB bus w d raw0).ret = VL53L7CX_STATUS_OK ∨
         (readC bus w d raw0).ret = VL53L7CX_STATUS_OK ∨
         (readD bus w d raw0).ret = VL53L7CX_STATUS_OK)) ∧
      ((vl53l7cx_get_zone_data bus w (some d) (some d0) raw0).ret ≠ VL53L7CX_STATUS_OK →
        (vl53l7cx_get_zone_data bus w (some d) (some d0) raw0).ret =
          VL53L7CX_STATUS_ERROR) := by
  rw [get_zone_data_chain bus w d d0 raw0 hinit]
  by_cases hA : (readA bus w d raw0).ret = VL53L7CX_STATUS_OK
  · rw [if_pos hA]
    exact ⟨_, rfl, ⟨fun _ => rfl, fun _ => rfl⟩, ⟨fun _ => Or.inl hA, fun _ => rfl⟩,
      fun h => absurd rfl h⟩
  · rw [if_neg hA]
    by_cases hB : (readB bus w d raw0).ret = VL53L7CX_STATUS_OK
    · rw [if_pos hB]
      exact ⟨_, rfl, ⟨fun _ => rfl, fun _ => rfl⟩,
        ⟨fun _ => Or.inr (Or.inl hB), fun _ => rfl⟩, fun h => absurd rfl h⟩
    · rw [if_neg hB]
      by_cases hC : (readC bus w d raw0).ret = VL53L7CX_STATUS_OK
      · rw [if_pos hC]
        exact ⟨_, rfl, ⟨fun _ => rfl, fun _ => rfl⟩,
          ⟨fun _ => Or.inr (Or.inr (Or.inl hC)), fun _ => rfl⟩, fun h => absurd rfl h⟩
      · rw [if_neg hC]
        by_cases hD : (readD bus w d raw0).ret = VL53L7CX_STATUS_OK
        · rw [if_pos hD]
          exact ⟨_, rfl, ⟨fun _ => rfl, fun _ => rfl⟩,
            ⟨fun _ => Or.inr (Or.inr (Or.inr hD)), fun _ => rfl⟩, fun h => absurd rfl h⟩
        · rw [if_neg hD]
          refine ⟨_, rfl, ⟨fun h => absurd h status_ok_ne_error, fun h => ?_⟩,
            ⟨fun h => absurd h status_ok_ne_error, fun h => ?_⟩, fun _ => rfl⟩
          · exact absurd h (by decide)
          · rcases h with h | h | h | h
            · exact absurd h hA
            · exact absurd h hB
            · exact absurd h hC
            · exact absurd h hD

/-- Witness for C25: a device that answers at 0x0009 only succeeds with `data_ready` set;
a device that answers nowhere fails with `data_ready` clear. -/
theorem C25_success_iff_data_ready_witness :
    (∃ s, (vl53l7cx_get_zone_data (regFileBus [9] demoContent) demoWorld (some demoDev)
        (some zeroed) []).data = some s ∧ s.data_ready = true) ∧
    (∃ s, (vl53l7cx_get_zone_data (regFileBus [] demoContent) demoWorld (some demoDev)
        (some zeroed) []).data = some s ∧ ¬ s.data_ready = true) := by
  obtain ⟨s1, hs1, hiff1, -, -⟩ := C25_success_iff_data_ready (regFileBus [9] demoContent)
    demoWorld demoDev zeroed [] rfl
  obtain ⟨s2, hs2, hiff2, -, -⟩ := C25_success_iff_data_ready (regFileBus [] demoContent)
    demoWorld demoDev zeroed [] rfl
  exact ⟨⟨s1, hs1, hiff1.mp (by decide)⟩,
    ⟨s2, hs2, fun h => absurd (hiff2.mpr h) (by decide)⟩⟩

/-! ## Array bounds of the decoder -/

theorem load8Checked_eq (buf : List Nat) (i : Nat) (hi : i < buf.length) :
    load8Checked buf i = some (load8 buf i) := by
  unfold load8Checked load8
  rw [List.getD_eq_getElem?_getD, List.getElem?_eq_getElem hi]
  rfl

theorem rawWordChecked_eq (raw : List Nat) (k : Nat) (hk : k * 2 + 1 < raw.length) :
    rawWordChecked raw k = some (rawWord raw k) := by
  unfold rawWordChecked rawWord
  rw [load8Checked_eq raw (k * 2 + 1) hk, load8Checked_eq raw (k * 2) (by omega)]

theorem storeZoneChecked_eq (d : vl53l7cx_zone_data_t) (i dist st : Nat)
    (hd : i < d.distance_mm.length) (hs : i < d.range_status.length) :
    storeZoneChecked d i dist st =
      some { d with distance_mm := d.distance_mm.set i dist,
                    range_status := d.range_status.set i st } := by
  unfold storeZoneChecked storeChecked
  rw [if_pos hd, if_pos hs]

theorem interpretZoneChecked_eq (raw : List Nat) (k i : Nat) (d : vl53l7cx_zone_data_t)
    (hk : k * 2 + 1 < raw.length) (hd : i < d.distance_mm.length)
    (hs : i < d.range_status.length) :
    interpretZoneChecked raw k i d = some (interpretZone raw k i d) := by
  unfold interpretZoneChecked interpretZone
  rw [rawWordChecked_eq raw k hk]
  simp only [storeZoneChecked_eq d i _ _ hd hs]
  split_ifs <;> rfl

theorem copyZoneChecked_eq (raw : List Nat) (i : Nat) (d : vl53l7cx_zone_data_t)
    (hk : i * 2 + 1 < raw.length) (hd : i < d.distance_mm.length)
    (hs : i < d.range_status.length) :
    copyZoneChecked raw i d = some (copyZone raw i d) := by
  unfold copyZoneChecked copyZone
  rw [rawWordChecked_eq raw i hk]
  simp only [storeZoneChecked_eq d i _ _ hd hs]

/-- A checked loop whose body never fails on the visited counters is the unchecked loop. -/
theorem forEachChecked_eq (body : vl53l7cx_zone_data_t → Nat → Option vl53l7cx_zone_data_t)
    (step : vl53l7cx_zone_data_t → Nat → vl53l7cx_zone_data_t)
    (inv : vl53l7cx_zone_data_t → Prop) (ok : Nat → Prop)
    (hstep : ∀ d i, inv d → ok i → body d i = some (step d i) ∧ inv (step d i))
    (is : List Nat) (d : vl53l7cx_zone_data_t) (hd : inv d) (his : ∀ i ∈ is, ok i) :
    forEachChecked body is d = some (is.foldl step d) := by
  induction is generalizing d with
  | nil => rfl
  | cons i rest ih =>
    have h := hstep d i hd (his i (List.mem_cons_self i rest))
    simp only [forEachChecked, h.1, List.foldl_cons]
    exact ih (step d i) h.2 (fun j hj => his j (List.mem_cons_of_mem i hj))

theorem interpretZone_lengths (raw : List Nat) (k i : Nat) (d : vl53l7cx_zone_data_t) :
    (interpretZone raw k i d).distance_mm.length = d.distance_mm.length ∧
    (interpretZone raw k i d).range_status.length = d.range_status.length := by
  rw [interpretZone_fields]
  exact ⟨List.length_set _ _ _, List.length_set _ _ _⟩

theorem copyZone_lengths (raw : List Nat) (i : Nat) (d : vl53l7cx_zone_data_t) :
    (copyZone raw i d).distance_mm.length = d.distance_mm.length ∧
    (copyZone raw i d).range_status.length = d.range_status.length := by
  unfold copyZone
  exact ⟨List.length_set _ _ _, List.length_set _ _ _⟩

theorem low_indices_in_range :
    ∀ i ∈ forIndices 0 (fun i => decide (i < VL53L7CX_NB_ZONES) && decide (i < 32)),
      i * 2 + 1 ≤ 63 ∧ i < 64 := by
  decide

theorem high_indices_in_range :
    ∀ i ∈ forIndices 32 (fun i => decide (i < VL53L7CX_NB_ZONES) && decide (i < 64)),
      (i - 32) * 2 + 1 ≤ 63 ∧ i < 64 := by
  decide

theorem decodeLowChecked_eq (raw : List Nat) (d : vl53l7cx_zone_data_t)
    (hraw : 64 ≤ raw.length) (hd : d.distance_mm.length = 64)
    (hs : d.range_status.length = 64) :
    decodeLowChecked raw d = some (decodeLow raw d) := by
  unfold decodeLowChecked decodeLow
  refine forEachChecked_eq _ (fun d i => interpretZone raw i i d)
    (fun d => d.distance_mm.length = 64 ∧ d.range_status.length = 64)
    (fun i => i * 2 + 1 ≤ 63 ∧ i < 64) ?_ _ d ⟨hd, hs⟩ low_indices_in_range
  intro e i he hi
  have hl := interpretZone_lengths raw i i e
  exact ⟨interpretZoneChecked_eq raw i i e (by omega) (by omega) (by omega),
    hl.1.trans he.1, hl.2.trans he.2⟩

theorem decodeHighChecked_eq (raw : List Nat) (d : vl53l7cx_zone_data_t)
    (hraw : 64 ≤ raw.length) (hd : d.distance_mm.length = 64)
    (hs : d.range_status.length = 64) :
    decodeHighChecked raw d = some (decodeHigh raw d) := by
  unfold decodeHighChecked decodeHigh
  refine forEachChecked_eq _ (fun d i => interpretZone raw (i - 32) i d)
    (fun d => d.distance_mm.length = 64 ∧ d.range_status.length = 64)
    (fun i => (i - 32) * 2 + 1 ≤ 63 ∧ i < 64) ?_ _ d ⟨hd, hs⟩ high_indices_in_range
  intro e i he hi
  have hl := interpretZone_lengths raw (i - 32) i e
  exact ⟨interpretZoneChecked_eq raw (i - 32) i e (by omega) (by omega) (by omega),
    hl.1.trans he.1, hl.2.trans he.2⟩

theorem copyLowChecked_eq (raw : List Nat) (d : vl53l7cx_zone_data_t)
    (hraw : 64 ≤ raw.length) (hd : d.distance_mm.length = 64)
    (hs : d.range_status.length = 64) :
    copyLowChecked raw d = some (copyLow raw d) := by
  unfold copyLowChecked copyLow
  refine forEachChecked_eq _ (fun d i => copyZone raw i d)
    (fun d => d.distance_mm.length = 64 ∧ d.range_status.length = 64)
    (fun i => i * 2 + 1 ≤ 63 ∧ i < 64) ?_ _ d ⟨hd, hs⟩ low_indices_in_range
  intro e i he hi
  have hl := copyZone_lengths raw i e
  exact ⟨copyZoneChecked_eq raw i e (by omega) (by omega) (by omega),
    hl.1.trans he.1, hl.2.trans he.2⟩

theorem memWrite_length (dst bytes : List Nat) (len : Nat) (hlen : len ≤ dst.length) :
    (memWrite dst bytes len).length = dst.length := by
  unfold memWrite
  rw [List.length_append, List.length_drop]
  have h : (bytes.take len).length ≤ len := by
    rw [List.length_take]
    exact Nat.min_le_left _ _
  omega

/-- A register read of at most the buffer size leaves the buffer size unchanged. -/
theorem read_register_data_length {σ : Type} (bus : I2CBus σ) (w : World σ)
    (d : vl53l7cx_device_t) (reg : Nat) (data : List Nat) (len : Nat)
    (hlen : len ≤ data.length) :
    (vl53l7cx_read_register bus w d reg data len).data.length = data.length := by
  unfold vl53l7cx_read_register i2c_read_blocking
  dsimp only
  split_ifs
  · rfl
  · exact memWrite_length data _ len hlen
  · exact memWrite_length data _ len hlen

/-- The checked decoder agrees with the decoder on an initialized handle. -/
theorem get_zone_data_checked_initialized {σ : Type} (bus : I2CBus σ) (w : World σ)
    (d : vl53l7cx_device_t) (d0 : vl53l7cx_zone_data_t) (raw0 : List Nat)
    (hraw : raw0.length = 128) (hinit : d.initialized = true) :
    vl53l7cx_get_zone_data_checked bus w (some d) (some d0) raw0 =
      some (vl53l7cx_get_zone_data bus w (some d) (some d0) raw0) := by
  have l1 : (readA bus w d raw0).data.length = 128 :=
    (read_register_data_length bus w d 0x0006 raw0 64 (by omega)).trans hraw
  have l2 : (readB bus w d raw0).data.length = 128 :=
    (read_register_data_length bus _ d 0x0007 _ 64 (by omega)).trans l1
  have l3 : (readC bus w d raw0).data.length = 128 :=
    (read_register_data_length bus _ d 0x0008 _ 64 (by omega)).trans l2
  have l4 : (readD bus w d raw0).data.length = 128 :=
    (read_register_data_length bus _ d 0x0009 _ 64 (by omega)).trans l3
  have n0 : ¬ raw0.length < 64 := by omega
  have n1 : ¬ (readA bus w d raw0).data.length < 64 := by omega
  have n2 : ¬ (readB bus w d raw0).data.length < 64 := by omega
  have n3 : ¬ (readC bus w d raw0).data.length < 64 := by omega
  have hlow := decodeLow_lengths (readA bus w d raw0).data zeroed
  rw [zeroed_lengths.1, zeroed_lengths.2] at hlow
  have e1 := decodeLowChecked_eq (readA bus w d raw0).data zeroed (by omega)
    zeroed_lengths.1 zeroed_lengths.2
  have e2 := decodeHighChecked_eq (readB bus w d raw0).data
    (decodeLow (readA bus w d raw0).data zeroed) (by omega) hlow.1 hlow.2
  have c2 := copyLowChecked_eq (readB bus w d raw0).data zeroed (by omega)
    zeroed_lengths.1 zeroed_lengths.2
  have c3 := copyLowChecked_eq (readC bus w d raw0).data zeroed (by omega)
    zeroed_lengths.1 zeroed_lengths.2
  have c4 := copyLowChecked_eq (readD bus w d raw0).data zeroed (by omega)
    zeroed_lengths.1 zeroed_lengths.2
  have hflag : ¬ d.initialized = false := by simp [hinit]
  simp only [readA, readB, readC, readD] at n1 n2 n3 e1 e2 c2 c3 c4
  unfold vl53l7cx_get_zone_data_checked vl53l7cx_get_zone_data
  simp only [hflag, n0, n1, n2, n3, e1, e2, c2, c3, c4, if_false]
  split_ifs <;> rfl

/-- Claim C24: every array access of `vl53l7cx_get_zone_data` is in bounds.  The counters of
the decoding loops give raw-buffer indices `2i`, `2i+1` (first loops) and `2(i-32)`,
`2(i-32)+1` (second loop of method 1) that are at most 63, and zone indices below 64; and
with the 128-byte local buffer the decoder whose accesses are all checked never fails: it
returns the result of `vl53l7cx_get_zone_data`, for every handle, output pointer and bus. -/
theorem C24_decoder_accesses_in_bounds {σ : Type} (bus : I2CBus σ) (w : World σ)
    (dev : Option vl53l7cx_device_t) (data : Option vl53l7cx_zone_data_t)
    (raw0 : List Nat) (hraw : raw0.length = 128) :
    (∀ i ∈ forIndices 0 (fun i => decide (i < VL53L7CX_NB_ZONES) && decide (i < 32)),
      i * 2 ≤ 63 ∧ i * 2 + 1 ≤ 63 ∧ i < 64) ∧
    (∀ i ∈ forIndices 32 (fun i => decide (i < VL53L7CX_NB_ZONES) && decide (i < 64)),
      32 ≤ i ∧ (i - 32) * 2 ≤ 63 ∧ (i - 32) * 2 + 1 ≤ 63 ∧ i < 64) ∧
    vl53l7cx_get_zone_data_checked bus w dev data raw0 =
      some (vl53l7cx_get_zone_data bus w dev data raw0) := by
  refine ⟨by decide, by decide, ?_⟩
  cases dev with
  | none => rfl
  | some d =>
    cases data with
    | none => rfl
    | some d0 =>
      by_cases hinit : d.initialized = true
      · exact get_zone_data_checked_initialized bus w d d0 raw0 hraw hinit
      · have hun : d.initialized = false := by simpa using hinit
        simp [vl53l7cx_get_zone_data_checked, vl53l7cx_get_zone_data, hun]

/-- Witness for C24: the checked decoder on the device answering at 0x0006 and 0x0007, with
a 128-byte buffer. -/
theorem C24_decoder_accesses_in_bounds_witness :
    vl53l7cx_get_zone_data_checked (regFileBus [6, 7] demoContent) demoWorld (some demoDev)
        (some zeroed) (List.replicate 128 0) =
      some (vl53l7cx_get_zone_data (regFileBus [6, 7] demoContent) demoWorld (some demoDev)
        (some zeroed) (List.replicate 128 0)) :=
  (C24_decoder_accesses_in_bounds (regFileBus [6, 7] demoContent) demoWorld (some demoDev)
    (some zeroed) (List.replicate 128 0) (List.length_replicate 128 0)).2.2

/-! ## Byte swapping -/

theorem or4_eq (a b c d : Nat) (hb : b < 256) (hc : c < 256) (hd : d < 256) :
    a <<< 24 ||| b <<< 16 ||| c <<< 8 ||| d = a * 16777216 + b * 65536 + c * 256 + d := by
  have h1 : a <<< 24 ||| b <<< 16 = 2 ^ 16 * (a * 256 + b) := by
    rw [Nat.shiftLeft_eq, Nat.shiftLeft_eq, Nat.mul_comm a (2 ^ 24),
      ← Nat.mul_add_lt_is_or (show b * 2 ^ 16 < 2 ^ 24 by omega) a]
    omega
  have h2 : 2 ^ 16 * (a * 256 + b) ||| c <<< 8 = 2 ^ 8 * (a * 65536 + b * 256 + c) := by
    rw [Nat.shiftLeft_eq, ← Nat.mul_add_lt_is_or (show c * 2 ^ 8 < 2 ^ 16 by omega) _]
    omega
  have h3 : 2 ^ 8 * (a * 65536 + b * 256 + c) ||| d
      = a * 16777216 + b * 65536 + c * 256 + d := by
    rw [← Nat.mul_add_lt_is_or (show d < 2 ^ 8 by omega) _]
    omega
  rw [h1, h2, h3]

/-- The four bytes of the word assembled by `VL53L7CX_SwapBuffer`, least significant first. -/
theorem word_bytes (a b c d : Nat) (ha : a < 256) (hb : b < 256) (hc : c < 256)
    (hd : d < 256) :
    ((a <<< 24 ||| b <<< 16 ||| c <<< 8 ||| d) % 4294967296) % 256 = d ∧
    (((a <<< 24 ||| b <<< 16 ||| c <<< 8 ||| d) % 4294967296) >>> 8) % 256 = c ∧
    (((a <<< 24 ||| b <<< 16 ||| c <<< 8 ||| d) % 4294967296) >>> 16) % 256 = b ∧
    (((a <<< 24 ||| b <<< 16 ||| c <<< 8 ||| d) % 4294967296) >>> 24) % 256 = a := by
  rw [or4_eq a b c d hb hc hd]
  simp only [Nat.shiftRight_eq_div_pow]
  refine ⟨by omega, by omega, by omega, by omega⟩

theorem swapStep_head (a b c d : Nat) (rest : List Nat) (ha : a < 256) (hb : b < 256)
    (hc : c < 256) (hd : d < 256) :
    swapStep (a :: b :: c :: d :: rest) 0 = d :: c :: b :: a :: rest := by
  have hw := word_bytes a b c d ha hb hc hd
  have e0 : load8 (a :: b :: c :: d :: rest) 0 = a := Nat.mod_eq_of_lt ha
  have e1 : load8 (a :: b :: c :: d :: rest) (0 + 1) = b := Nat.mod_eq_of_lt hb
  have e2 : load8 (a :: b :: c :: d :: rest) (0 + 2) = c := Nat.mod_eq_of_lt hc
  have e3 : load8 (a :: b :: c :: d :: rest) (0 + 3) = d := Nat.mod_eq_of_lt hd
  unfold swapStep
  simp only [e0, e1, e2, e3, UINT32_SIZE, hw.1, hw.2.1, hw.2.2.1, hw.2.2.2]
  rfl

theorem swapStep_cons (x : Nat) (l : List Nat) (i : Nat) :
    swapStep (x :: l) (i + 1) = x :: swapStep l i := by
  have e1 : i + 1 + 1 = (i + 1) + 1 := rfl
  have e2 : i + 1 + 2 = (i + 2) + 1 := by omega
  have e3 : i + 1 + 3 = (i + 3) + 1 := by omega
  have hl : ∀ j, load8 (x :: l) (j + 1) = load8 l j := fun _ => rfl
  unfold swapStep
  simp only [e2, e3, hl, List.set_cons_succ]

theorem swapStep_append (pre l : List Nat) (i : Nat) :
    swapStep (pre ++ l) (pre.length + i) = pre ++ swapStep l i := by
  induction pre with
  | nil => simp
  | cons x pre ih =>
    have e : (x :: pre).length + i = (pre.length + i) + 1 := by
      simp only [List.length_cons]
      omega
    rw [e, List.cons_append, swapStep_cons, ih, List.cons_append]

/-- A list whose length is a positive multiple of 4 starts with a group of four. -/
theorem exists_group (rest : List Nat) (n : Nat) (hlen : rest.length = 4 * (n + 1)) :
    ∃ a b c d tail, rest = a :: b :: c :: d :: tail ∧ tail.length = 4 * n := by
  match rest, hlen with
  | a :: b :: c :: d :: tail, h =>
    refine ⟨a, b, c, d, tail, rfl, ?_⟩
    simp only [List.length_cons] at h
    omega
  | [], h => simp at h
  | [_], h => simp at h; omega
  | [_, _], h => simp at h; omega
  | [_, _, _], h => simp at h; omega

/-- The loop, started at the end of the part `pre` already processed, with `n` groups left
and at least `n` iterations allowed, reverses each remaining group. -/
theorem swapLoop_groups (n : Nat) :
    ∀ (fuel : Nat) (pre rest : List Nat), rest.length = 4 * n → n ≤ fuel →
      (∀ x ∈ rest, x < 256) →
      swapLoop fuel (pre ++ rest) (pre.length + 4 * n) pre.length =
        pre ++ reverseGroups rest := by
  induction n with
  | zero =>
    intro fuel pre rest hlen _ _
    have hnil : rest = [] := List.eq_nil_of_length_eq_zero (by omega)
    subst hnil
    cases fuel with
    | zero => rfl
    | succ fuel =>
      unfold swapLoop
      rw [if_neg (by omega)]
      rfl
  | succ n ih =>
    intro fuel pre rest hlen hfuel hbytes
    obtain ⟨a, b, c, d, tail, rfl, htail⟩ := exists_group rest n hlen
    cases fuel with
    | zero => omega
    | succ fuel =>
      have ha : a < 256 := hbytes a (by simp)
      have hb : b < 256 := hbytes b (by simp)
      have hc : c < 256 := hbytes c (by simp)
      have hd : d < 256 := hbytes d (by simp)
      have hstep : swapStep (pre ++ a :: b :: c :: d :: tail) pre.length =
          (pre ++ [d, c, b, a]) ++ tail := by
        have := swapStep_append pre (a :: b :: c :: d :: tail) 0
        rw [Nat.add_zero, swapStep_head a b c d tail ha hb hc hd] at this
        rw [this]
        simp
      have hsize : pre.length + 4 * (n + 1) = (pre ++ [d, c, b, a]).length + 4 * n := by
        simp only [List.length_append, List.length_cons, List.length_nil]
        omega
      have hnext : pre.length + 4 = (pre ++ [d, c, b, a]).length := by
        simp only [List.length_append, List.length_cons, List.length_nil]
      unfold swapLoop
      rw [if_pos (by omega), hstep, hsize, hnext,
        ih fuel (pre ++ [d, c, b, a]) tail htail (by omega)
          (fun x hx => hbytes x (by simp [hx]))]
      simp [reverseGroups]

theorem reverseGroups_length (l : List Nat) : (reverseGroups l).length = l.length := by
  induction l using reverseGroups.induct with
  | case1 a b c d rest ih => simp [reverseGroups, ih]
  | case2 l h =>
    unfold reverseGroups
    split
    · exact absurd rfl (h _ _ _ _ _)
    · rfl

theorem reverseGroups_involutive (l : List Nat) : reverseGroups (reverseGroups l) = l := by
  induction l using reverseGroups.induct with
  | case1 a b c d rest ih => simp [reverseGroups, ih]
  | case2 l h =>
    have e : reverseGroups l = l := by
      unfold reverseGroups
      split
      · exact absurd rfl (h _ _ _ _ _)
      · rfl
    rw [e, e]

theorem reverseGroups_bytes (l : List Nat) (hl : ∀ x ∈ l, x < 256) :
    ∀ x ∈ reverseGroups l, x < 256 := by
  induction l using reverseGroups.induct with
  | case1 a b c d rest ih =>
    intro x hx
    simp only [reverseGroups, List.mem_cons] at hx
    rcases hx with rfl | rfl | rfl | rfl | hx
    · exact hl _ (by simp)
    · exact hl _ (by simp)
    · exact hl _ (by simp)
    · exact hl _ (by simp)
    · exact ih (fun y hy => hl y (by simp [hy])) x hx
  | case2 l h =>
    have e : reverseGroups l = l := by
      unfold reverseGroups
      split
      · exact absurd rfl (h _ _ _ _ _)
      · rfl
    rw [e]
    exact hl

theorem reverseGroups_getElem? (k : Nat) :
    ∀ (n : Nat) (l : List Nat) (j : Nat), l.length = 4 * n → j < 4 → 4 * k + j < l.length →
      (reverseGroups l)[4 * k + j]? = l[4 * k + 3 - j]? := by
  induction k with
  | zero =>
    intro n l j hlen hj hlt
    cases n with
    | zero => omega
    | succ n =>
      obtain ⟨a, b, c, d, tail, rfl, -⟩ := exists_group l n hlen
      interval_cases j <;> simp [reverseGroups]
  | succ k ih =>
    intro n l j hlen hj hlt
    cases n with
    | zero => omega
    | succ n =>
      obtain ⟨a, b, c, d, tail, rfl, htail⟩ := exists_group l n hlen
      have e1 : 4 * (k + 1) + j = (4 * k + j) + 1 + 1 + 1 + 1 := by omega
      have e2 : 4 * (k + 1) + 3 - j = (4 * k + 3 - j) + 1 + 1 + 1 + 1 := by omega
      simp only [List.length_cons] at hlt
      rw [e1, e2]
      simp only [reverseGroups, List.getElem?_cons_succ]
      exact ih n tail j htail hj (by omega)

/-- On a buffer of `size` bytes, `size` a multiple of 4, the loop computes the group
reversal, with any number of allowed iterations from `size / 4` on. -/
theorem swapLoop_eq_reverseGroups (buffer : List Nat) (size fuel : Nat)
    (hlen : buffer.length = size) (h4 : size % 4 = 0) (hbytes : ∀ x ∈ buffer, x < 256)
    (hfuel : size / 4 ≤ fuel) :
    swapLoop fuel buffer size 0 = reverseGroups buffer := by
  have h := swapLoop_groups (size / 4) fuel [] buffer (by omega) hfuel hbytes
  simp only [List.nil_append, List.length_nil, Nat.zero_add] at h
  rw [show 4 * (size / 4) = size by omega] at h
  exact h

/-- Claim C26: for a buffer of `size` bytes with `size` a multiple of 4,
`VL53L7CX_SwapBuffer` (little-endian host) reverses the byte order inside each aligned
group of four bytes and leaves the groups in place: `output[4k + j] = input[4k + 3 - j]`
for `j < 4`.  The length is unchanged, applying it twice gives back the original buffer, and
the result does not depend on the iteration bound of the embedding. -/
theorem C26_swap_buffer_reverses_groups (buffer : List Nat) (size : Nat)
    (hlen : buffer.length = size) (h4 : size % 4 = 0) (hsize : size < 65536)
    (hbytes : ∀ x ∈ buffer, x < 256) :
    VL53L7CX_SwapBuffer buffer size = reverseGroups buffer ∧
    (VL53L7CX_SwapBuffer buffer size).length = size ∧
    (∀ k j, j < 4 → 4 * k + j < size →
      (VL53L7CX_SwapBuffer buffer size)[4 * k + j]? = buffer[4 * k + 3 - j]?) ∧
    VL53L7CX_SwapBuffer (VL53L7CX_SwapBuffer buffer size) size = buffer ∧
    (∀ fuel, size ≤ fuel → swapLoop fuel buffer size 0 = VL53L7CX_SwapBuffer buffer size) := by
  have hsize2 := hsize
  have hdiv : size / 4 ≤ size := Nat.div_le_self size 4
  have hswap : VL53L7CX_SwapBuffer buffer size = reverseGroups buffer :=
    swapLoop_eq_reverseGroups buffer size size hlen h4 hbytes hdiv
  have hlen2 : (reverseGroups buffer).length = size :=
    (reverseGroups_length buffer).trans hlen
  refine ⟨hswap, hswap ▸ hlen2, ?_, ?_, ?_⟩
  · intro k j hj hlt
    rw [hswap]
    exact reverseGroups_getElem? k (size / 4) buffer j (by omega) hj (by omega)
  · rw [hswap]
    have h2 : VL53L7CX_SwapBuffer (reverseGroups buffer) size =
        reverseGroups (reverseGroups buffer) :=
      swapLoop_eq_reverseGroups (reverseGroups buffer) size size hlen2 h4
        (reverseGroups_bytes buffer hbytes) hdiv
    rw [h2, reverseGroups_involutive]
  · intro fuel hfuel
    rw [hswap]
    exact swapLoop_eq_reverseGroups buffer size fuel hlen h4 hbytes (by omega)

/-- Witness for C26: an 8-byte buffer. -/
theorem C26_swap_buffer_reverses_groups_witness :
    VL53L7CX_SwapBuffer [0x11, 0x22, 0x33, 0x44, 0xAA, 0xBB, 0xCC, 0xFF] 8 =
      [0x44, 0x33, 0x22, 0x11, 0xFF, 0xCC, 0xBB, 0xAA] ∧
    VL53L7CX_SwapBuffer
      (VL53L7CX_SwapBuffer [0x11, 0x22, 0x33, 0x44, 0xAA, 0xBB, 0xCC, 0xFF] 8) 8 =
      [0x11, 0x22, 0x33, 0x44, 0xAA, 0xBB, 0xCC, 0xFF] := by
  obtain ⟨h1, -, -, h4, -⟩ := C26_swap_buffer_reverses_groups
    [0x11, 0x22, 0x33, 0x44, 0xAA, 0xBB, 0xCC, 0xFF] 8 rfl (by decide) (by decide)
    (by decide)
  exact ⟨h1.trans (by simp [reverseGroups]), h4⟩

end VL53L7CX
